import Mathlib

/-!
Shallow embedding of the AfterHeal missed-dose notification engine
(`scripts/notifications.js`: the v3 "Life-Critical Emergency Alert System"
engine and the legacy variant that appears alongside it).

Conventions of the embedding:
* `localStorage` is modelled by the `Store` structure; each `AH.KEYS.*`
  collection is one field.
* Instants (ISO timestamps / epoch milliseconds) are modelled as `Nat`
  milliseconds; `new Date(iso).getTime()` is the identity on this model.
* `uuid()` (random id generation) is modelled as a fresh-name supply: a
  counter `nextId` threaded through the store.
* Locale-specific date rendering (`toLocaleString` in `fmtTime`) is
  abstracted as the decimal rendering of the underlying millisecond
  timestamp; no verified property inspects the rendered text.
* JS truthiness on nullable fields is modelled with `Option` (`none` =
  `null`/absent = falsy).
* The gateway's HTTP transport (`fetch` + response parsing) is an external
  effect; it is modelled as an explicit `Except String Bool` argument:
  `.ok b` is a completed exchange whose success flag (`response.ok` for
  twilio, `data.return` for fast2sms) is `b`, `.error e` is a thrown
  network/parse error.
* Asynchronous gateway sends are modelled as completing synchronously (in
  the default simulation mode the audit-log write indeed happens
  synchronously inside `send`); the `.then` callbacks that later update a
  contact's `notifiedAt` run only after detection has returned and are not
  part of the detection step's result.
-/

/-- Minutes after which an unconfirmed past-due dose is "missed"
(`MISSED_THRESHOLD_MINS = 30` in the source). -/
def MISSED_THRESHOLD_MINS : Nat := 30

/-- The missed-dose threshold in milliseconds
(`MISSED_THRESHOLD_MINS * 60 * 1000`). -/
def thresholdMs : Nat := MISSED_THRESHOLD_MINS * 60 * 1000

/-- Notification types (the `NT` table in the source). -/
inductive NotifType
  | missed_dose
  | sms_sent
  | caregiver_alert
  | system
deriving DecidableEq

/-- Alert delivery statuses (the `STATUS` table in the source). -/
inductive DeliveryStatus
  | simulated
  | sent
  | failed
  | pending
deriving DecidableEq

/-- Recipient role recorded on an audit-log entry (`meta.type` in the
source: the string `'emergency_contact'` or `'caregiver'`). -/
inductive AlertType
  | emergency_contact
  | caregiver
deriving DecidableEq

/-- The characters matched by JavaScript's `\s` regex class (restricted to
the ASCII range used here): space, tab, line feed, carriage return,
vertical tab, form feed. -/
def isJsWhitespace (c : Char) : Bool :=
  c = ' ' || c = '\t' || c = '\n' || c = '\r' || c = '\x0b' || c = '\x0c'

/-- Strip leading JS whitespace from a character list. -/
def trimLeftChars : List Char → List Char
  | [] => []
  | c :: cs => if isJsWhitespace c then trimLeftChars cs else c :: cs

/-- `String.prototype.trim()`: strip whitespace from both ends. -/
def jsTrim (s : String) : String :=
  ⟨(trimLeftChars (trimLeftChars s.data).reverse).reverse⟩

/-- One character of the body of the phone regex `[\d\s\-().]`. -/
def phoneBodyChar (c : Char) : Bool :=
  c.isDigit || isJsWhitespace c || c = '-' || c = '(' || c = ')' || c = '.'

/-- The test of the regex `^\+?[\d\s\-().]{7,20}$`: an optional leading
`'+'` (which must be consumed when present, since `'+'` is not in the
character class), then 7 to 20 characters of the class. -/
def phoneRegexTest (cleaned : String) : Bool :=
  let body := match cleaned.data with
    | '+' :: rest => rest
    | cs => cs
  body.all phoneBodyChar && decide (7 ≤ body.length) && decide (body.length ≤ 20)

/-- `validatePhone` from the source: trim, regex test, then the count of
digit characters must be between 7 and 15 (`replace(/\D/g,'')`). -/
def validatePhone (phone : String) : Bool :=
  let cleaned := jsTrim phone
  if !phoneRegexTest cleaned then false
  else
    let digits := cleaned.data.filter Char.isDigit
    decide (7 ≤ digits.length) && decide (digits.length ≤ 15)

/-- `esc` from the source: HTML-escape `&`, `<`, `>`. The source applies
three sequential global replaces; since the replacement texts introduce no
further occurrences of the replaced characters, this equals the single-pass
character expansion used here. -/
def escChar (c : Char) : List Char :=
  if c = '&' then "&amp;".data
  else if c = '<' then "&lt;".data
  else if c = '>' then "&gt;".data
  else [c]

/-- HTML escape of a whole string (see `escChar`). -/
def esc (s : String) : String :=
  ⟨(s.data.map escChar).flatten⟩

/-- `fmtTime` renders an instant with `toLocaleString`; the embedding
abstracts the locale rendering as the decimal form of the timestamp. -/
def fmtTime (t : Nat) : String := toString t

/-- `SMS_TEMPLATE` from the source. -/
def SMS_TEMPLATE (patientName medName dosage dueTime : String) : String :=
  "ALERT: " ++ patientName ++ " enrolled in AfterHeal missed a dose of " ++
    medName ++ " " ++ dosage ++ " scheduled for " ++ dueTime ++
    ". Immediate attention may be required. – AfterHeal System"

/-- A scheduled dose (`AH.KEYS.DOSES`). `scheduledTime` and `takenAt` are
nullable instants. -/
structure Dose where
  id : String
  medId : String
  patientId : String
  scheduledTime : Option Nat
  takenAt : Option Nat
deriving DecidableEq

/-- A medication (`AH.KEYS.MEDICATIONS`), restricted to the fields the
notification engine reads. -/
structure Medication where
  id : String
  patientId : String
  name : String
  dosage : String
deriving DecidableEq

/-- A user record (`AH.KEYS.USERS`), restricted to the fields the engine
reads. `phone` is nullable (`caregiver.phone || caregiver.email`). -/
structure User where
  id : String
  name : String
  phone : Option String
  email : String
deriving DecidableEq

/-- An emergency contact (`AH.KEYS.EMERGENCY_CONTACTS`). -/
structure Contact where
  id : String
  patientId : String
  name : String
  relation : String
  phone : String
  isPrimary : Bool
  notifiedAt : Option Nat
  createdAt : Option Nat
  updatedAt : Option Nat
deriving DecidableEq, Inhabited

/-- An in-app notification (`AH.KEYS.NOTIFICATIONS`). -/
structure Notif where
  id : String
  patientId : String
  doseId : Option String
  type : NotifType
  message : String
  timestamp : Nat
  read : Bool
  contactId : Option String
  caregiverId : Option String
deriving DecidableEq

/-- An audit-trail entry (`AH.KEYS.ALERT_LOGS`), as written by
`SMSGateway.send`. -/
structure AlertLogEntry where
  id : String
  patientId : String
  doseId : String
  medName : String
  medDosage : String
  scheduledTime : Option Nat
  contactId : String
  contactName : String
  contactPhone : String
  contactRole : String
  type : AlertType
  smsMessage : String
  deliveryStatus : DeliveryStatus
  provider : String
  triggeredAt : Nat
  acknowledgedAt : Option Nat
deriving DecidableEq

/-- The whole `localStorage` data store, plus the fresh-id counter. -/
structure Store where
  doses : List Dose
  medications : List Medication
  users : List User
  emergencyContacts : List Contact
  caregiverAssignment : List (String × String)
  notifications : List Notif
  alertLogs : List AlertLogEntry
  nextId : Nat
deriving DecidableEq

/-- The slice of the store that the detection loop and the gateway write:
notifications, audit log, and the fresh-id supply. Everything else
(doses, medications, users, contacts, caregiver assignment) is read-only
during a scan. -/
structure AlertState where
  notifications : List Notif
  alertLogs : List AlertLogEntry
  nextId : Nat
deriving DecidableEq

/-- `uuid()` modelled as a deterministic fresh-name supply. -/
def uuidFrom (n : Nat) : String := "id_" ++ toString n

/-- Draw a fresh id from an `AlertState`. -/
def AlertState.freshId (a : AlertState) : String × AlertState :=
  (uuidFrom a.nextId, { a with nextId := a.nextId + 1 })

/-- Project the mutable slice out of a store. -/
def AlertState.ofStore (s : Store) : AlertState :=
  ⟨s.notifications, s.alertLogs, s.nextId⟩

/-- Write the mutable slice back into a store. -/
def Store.withAlert (s : Store) (a : AlertState) : Store :=
  { s with notifications := a.notifications, alertLogs := a.alertLogs,
           nextId := a.nextId }

/-- The SMS provider mode of the gateway (`_mode`). -/
inductive SmsMode
  | simulation
  | twilio
  | fast2sms
deriving DecidableEq

/-- The value returned by `SMSGateway.send` (`{ ok, status, provider }`). -/
structure SendResult where
  ok : Bool
  status : DeliveryStatus
  provider : String
deriving DecidableEq

/-- The `meta` argument of `SMSGateway.send` as passed by the detector. -/
structure SendMeta where
  patientId : String
  doseId : String
  medName : String
  medDosage : String
  scheduledTime : Option Nat
  contactId : String
  contactName : String
  contactRole : String
  type : AlertType
deriving DecidableEq

/-- `SMSGateway.send`. The provider-specific HTTP exchange is supplied as
the `transport` argument (see the module comment); the provider
credentials in `_config` only parameterize that exchange and do not
otherwise affect the result. In simulation mode no transport occurs. Every
call, on every path, prepends (`unshift`) exactly one audit-log entry
before returning; a thrown network/parse error is caught and converted to
a `failed` result. -/
def SMSGateway.send (mode : SmsMode) (transport : Except String Bool)
    (dest body : String) (meta : SendMeta) (now : Nat) (a : AlertState) :
    SendResult × AlertState :=
  let result : SendResult :=
    match mode with
    | .simulation => { ok := true, status := .simulated, provider := "simulation" }
    | .twilio =>
      match transport with
      | .ok respOk =>
        { ok := respOk, status := if respOk then .sent else .failed, provider := "twilio" }
      | .error _ => { ok := false, status := .failed, provider := "twilio" }
    | .fast2sms =>
      match transport with
      | .ok ret =>
        { ok := ret, status := if ret then .sent else .failed, provider := "fast2sms" }
      | .error _ => { ok := false, status := .failed, provider := "fast2sms" }
  let (lid, a1) := a.freshId
  let entry : AlertLogEntry := {
    id := lid, patientId := meta.patientId, doseId := meta.doseId,
    medName := meta.medName, medDosage := meta.medDosage,
    scheduledTime := meta.scheduledTime,
    contactId := meta.contactId, contactName := meta.contactName,
    contactPhone := dest, contactRole := meta.contactRole,
    type := meta.type, smsMessage := body,
    deliveryStatus := result.status, provider := result.provider,
    triggeredAt := now, acknowledgedAt := none }
  (result, { a1 with alertLogs := entry :: a1.alertLogs })

/-- The doses scanned by `detectMissedDoses` for a patient: the patient's
doses with `takenAt` null and a non-null `scheduledTime`. -/
def allDosesOf (patientId : String) (s : Store) : List Dose :=
  s.doses.filter (fun d =>
    d.patientId == patientId && d.takenAt == none && d.scheduledTime.isSome)

/-- The dedup set recomputed at the start of each scan: the `doseId`s
carried by the persisted notifications
(`existingNotifs.filter(n => n.doseId).map(n => n.doseId)`). -/
def dedupSet (s : Store) : List String :=
  (s.notifications.filter (fun n => n.doseId.isSome)).map (fun n => n.doseId.getD "")

/-- The read-only context a scan works with: everything the detection loop
reads from the store before iterating over the doses, plus the gateway
mode and its transport behaviour. -/
structure DetectCtx where
  patientId : String
  now : Nat
  patientName : String
  meds : List Medication
  contacts : List Contact
  caregiver : Option User
  caregiverId : Option String
  alreadyNotified : List String
  mode : SmsMode
  transport : Except String Bool

/-- The `meta` the detector passes to the gateway for an emergency
contact. -/
def contactMeta (ctx : DetectCtx) (dose : Dose) (med : Medication)
    (contact : Contact) : SendMeta :=
  { patientId := ctx.patientId, doseId := dose.id,
    medName := med.name, medDosage := med.dosage,
    scheduledTime := dose.scheduledTime,
    contactId := contact.id, contactName := contact.name,
    contactRole := if contact.relation = "" then "Emergency Contact" else contact.relation,
    type := .emergency_contact }

/-- The `sms_sent` in-app notification created for one emergency
contact. -/
def smsNotifFor (ctx : DetectCtx) (dose : Dose) (contact : Contact)
    (nid : String) : Notif :=
  { id := nid, patientId := ctx.patientId, doseId := some dose.id,
    type := .sms_sent,
    message := "📱 SMS sent to " ++ contact.name ++ " (" ++
      (if contact.relation = "" then "Emergency Contact" else contact.relation) ++
      ") at " ++ contact.phone ++
      (if contact.isPrimary then " ★ Primary" else "") ++ ".",
    timestamp := ctx.now, read := false,
    contactId := some contact.id, caregiverId := none }

/-- One iteration of the `contacts.map(...)` loop inside the detector: a
fire-and-forget gateway send (which appends one audit-log entry) followed
by the construction of the `sms_sent` notification. -/
def contactsStep (ctx : DetectCtx) (dose : Dose) (med : Medication)
    (smsBody : String) (acc : List Notif × AlertState) (contact : Contact) :
    List Notif × AlertState :=
  let (ns, a) := acc
  let (_res, a) := SMSGateway.send ctx.mode ctx.transport contact.phone smsBody
    (contactMeta ctx dose med contact) ctx.now a
  let (nid, a) := a.freshId
  (ns ++ [smsNotifFor ctx dose contact nid], a)

/-- The `meta` the detector passes to the gateway for the caregiver. -/
def cgMeta (ctx : DetectCtx) (dose : Dose) (med : Medication) (cg : User) :
    SendMeta :=
  { patientId := ctx.patientId, doseId := dose.id,
    medName := med.name, medDosage := med.dosage,
    scheduledTime := dose.scheduledTime,
    contactId := cg.id, contactName := cg.name,
    contactRole := "Assigned Caregiver", type := .caregiver }

/-- The caregiver branch of the detector: if a caregiver is assigned (and
resolves to a user), one more gateway send (phone if present else email)
and one `caregiver_alert` notification. -/
def caregiverStep (ctx : DetectCtx) (dose : Dose) (med : Medication)
    (smsBody : String) (a : AlertState) : Option Notif × AlertState :=
  match ctx.caregiver with
  | none => (none, a)
  | some cg =>
    let (_res, a) := SMSGateway.send ctx.mode ctx.transport
      (cg.phone.getD cg.email) smsBody (cgMeta ctx dose med cg) ctx.now a
    let (nid, a) := a.freshId
    (some { id := nid, patientId := ctx.patientId, doseId := some dose.id,
            type := .caregiver_alert,
            message := "🏥 Caregiver " ++ cg.name ++
              " has been automatically notified about the missed dose of " ++
              med.name ++ ".",
            timestamp := ctx.now, read := false,
            contactId := none, caregiverId := ctx.caregiverId }, a)

/-- The `missed_dose` in-app notification created for an alerted dose. -/
def missedNotifFor (ctx : DetectCtx) (dose : Dose) (med : Medication)
    (mid : String) : Notif :=
  { id := mid, patientId := ctx.patientId, doseId := some dose.id,
    type := .missed_dose,
    message := "⚠️ Missed dose: " ++ med.name ++ " (" ++ med.dosage ++
      ") was due at " ++ fmtTime (dose.scheduledTime.getD 0) ++
      ". Emergency contacts & caregiver notified.",
    timestamp := ctx.now, read := false,
    contactId := none, caregiverId := none }

/-- The alerting part of one dose iteration in the v3 detector, once the
dose is known to qualify and its medication is resolved: create the
`missed_dose` notification, fan out to every contact (gateway send +
`sms_sent` notification each), fan out to the caregiver, persist the batch
of notifications (`[...existing, ...toAdd]`), and count the dose. -/
def fireDose (ctx : DetectCtx) (dose : Dose) (med : Medication)
    (count : Nat) (a : AlertState) : Nat × AlertState :=
  let smsBody := SMS_TEMPLATE ctx.patientName med.name med.dosage
    (fmtTime (dose.scheduledTime.getD 0))
  let missedNotif := missedNotifFor ctx dose med a.freshId.1
  let folded := ctx.contacts.foldl (contactsStep ctx dose med smsBody) ([], a.freshId.2)
  let cg := caregiverStep ctx dose med smsBody folded.2
  let toAdd := missedNotif :: folded.1 ++
    (match cg.1 with | some n => [n] | none => [])
  (count + 1, { cg.2 with notifications := cg.2.notifications ++ toAdd })

/-- The body of `allDoses.forEach(dose => ...)` in the v3 detector: skip
the dose unless it is overdue by at least the threshold and not already in
the dedup set; resolve its medication (skip silently when missing); then
fire the alert cycle (`fireDose`). -/
def processDose (ctx : DetectCtx) (acc : Nat × AlertState) (dose : Dose) :
    Nat × AlertState :=
  let overdueMs : Int := (ctx.now : Int) - ((dose.scheduledTime.getD 0 : Nat) : Int)
  if overdueMs < (thresholdMs : Int) || ctx.alreadyNotified.contains dose.id then acc
  else
    match ctx.meds.find? (fun m => m.id == dose.medId) with
    | none => acc
    | some med => fireDose ctx dose med acc.1 acc.2

/-- Build the scan context from the store (the reads the v3 detector
performs before its dose loop). -/
def detectCtx (mode : SmsMode) (transport : Except String Bool)
    (patientId : String) (now : Nat) (s : Store) (patient : User) : DetectCtx :=
  let caregiverId :=
    (s.caregiverAssignment.find? (fun kv => kv.1 == patientId)).map (fun kv => kv.2)
  { patientId, now, patientName := patient.name,
    meds := s.medications,
    contacts := s.emergencyContacts.filter (fun c => c.patientId == patientId),
    caregiver := match caregiverId with
      | some cg => s.users.find? (fun u => u.id == cg)
      | none => none,
    caregiverId, alreadyNotified := dedupSet s, mode, transport }

/-- `detectMissedDoses` (v3 engine). All reads before the patient-existence
check are pure, so the not-found early return leaves the store untouched.
Returns the count of newly alerted doses together with the updated
store. -/
def detectMissedDoses (mode : SmsMode) (transport : Except String Bool)
    (patientId : String) (now : Nat) (s : Store) : Nat × Store :=
  match s.users.find? (fun u => u.id == patientId) with
  | none => (0, s)
  | some patient =>
    let ctx := detectCtx mode transport patientId now s patient
    let (c, a) := (allDosesOf patientId s).foldl (processDose ctx) (0, AlertState.ofStore s)
    (c, s.withAlert a)

/-- Whether a scanned dose fires a new alert cycle in the v3 detector:
overdue by at least the threshold, not in the dedup set, and its
medication resolves. -/
def doseQualifies (patientId : String) (now : Nat) (s : Store) (d : Dose) : Bool :=
  !((now : Int) - ((d.scheduledTime.getD 0 : Nat) : Int) < (thresholdMs : Int)
      || (dedupSet s).contains d.id)
    && (s.medications.find? (fun m => m.id == d.medId)).isSome

/-- One iteration of the contact loop of the legacy detector variant: it
only builds a simulated-SMS notification (no gateway, no audit log). -/
def legacyContactStep (patientId : String) (now : Nat) (patient : Option User)
    (dose : Dose) (med : Medication) (acc : List Notif × Nat) (contact : Contact) :
    List Notif × Nat :=
  let (ns, nid) := acc
  (ns ++ [{ id := uuidFrom nid, patientId,
            doseId := some dose.id, type := .sms_sent,
            message := "📱 Simulated SMS to " ++ esc contact.name ++ " (" ++
              esc contact.relation ++ ") at " ++ esc contact.phone ++ ": \"" ++
              (match patient with | some p => p.name | none => "Patient") ++
              " missed " ++ med.name ++ " dose due at " ++
              fmtTime (dose.scheduledTime.getD 0) ++ ".\"",
            timestamp := now, read := false,
            contactId := some contact.id, caregiverId := none }], nid + 1)

/-- The body of the dose loop of the legacy detector variant. -/
def legacyProcessDose (patientId : String) (now : Nat) (s : Store)
    (patient : Option User) (alreadyNotified : List String)
    (acc : List Notif × Nat) (dose : Dose) : List Notif × Nat :=
  let (ns, nid) := acc
  let overdueMs : Int := (now : Int) - ((dose.scheduledTime.getD 0 : Nat) : Int)
  if decide ((thresholdMs : Int) ≤ overdueMs) && !alreadyNotified.contains dose.id then
    match s.medications.find? (fun m => m.id == dose.medId) with
    | none => acc
    | some med =>
      let missedNotif : Notif :=
        { id := uuidFrom nid, patientId, doseId := some dose.id,
          type := .missed_dose,
          message := "Missed dose: " ++ med.name ++ " (" ++ med.dosage ++
            ") was due at " ++ fmtTime (dose.scheduledTime.getD 0) ++ ".",
          timestamp := now, read := false,
          contactId := none, caregiverId := none }
      let contacts := s.emergencyContacts.filter (fun c => c.patientId == patientId)
      contacts.foldl (legacyContactStep patientId now patient dose med)
        (ns ++ [missedNotif], nid + 1)
  else acc

/-- The legacy `detectMissedDoses` variant: no patient-existence early
return, no gateway/audit log, and it returns `newNotifications.length`
(the number of notification records created). -/
def detectMissedDosesLegacy (patientId : String) (now : Nat) (s : Store) :
    Nat × Store :=
  let alreadyNotified := dedupSet s
  let patient := s.users.find? (fun u => u.id == patientId)
  let (newNotifications, nid) := (allDosesOf patientId s).foldl
    (legacyProcessDose patientId now s patient alreadyNotified) ([], s.nextId)
  let s2 := if newNotifications.isEmpty then { s with nextId := nid }
    else { s with notifications := s.notifications ++ newNotifications, nextId := nid }
  (newNotifications.length, s2)

/-- Result shape of the contact CRUD operations (`{ ok, error? }`). -/
structure OpResult where
  ok : Bool
  error : Option String
deriving DecidableEq

/-- Demote a contact of the given patient
(`c.patientId === patientId ? { ...c, isPrimary: false } : c`). -/
def demote (patientId : String) (c : Contact) : Contact :=
  if c.patientId == patientId then { c with isPrimary := false } else c

/-- The contact record pushed by `addContact`. -/
def newContactRec (patientId name relation phone : String) (isPrimary : Bool)
    (now nextId : Nat) : Contact :=
  { id := uuidFrom nextId, patientId, name := jsTrim name,
    relation := if jsTrim relation = "" then "Emergency Contact" else jsTrim relation,
    phone := jsTrim phone, isPrimary,
    notifiedAt := none, createdAt := some now, updatedAt := none }

/-- The successful-path list update of `addContact`: when the new contact
is primary, demote every existing contact of the patient, then push the
new record. -/
def addContactList (patientId name relation phone : String) (isPrimary : Bool)
    (now nextId : Nat) (contacts : List Contact) : List Contact :=
  (if isPrimary then contacts.map (demote patientId) else contacts)
    ++ [newContactRec patientId name relation phone isPrimary now nextId]

/-- `addContact`: validation (empty name/phone, phone format), then the
demote-and-push update. On a validation failure the store is returned
unchanged. -/
def addContact (patientId name relation phone : String) (isPrimary : Bool)
    (now : Nat) (s : Store) : OpResult × Store :=
  if jsTrim name = "" || jsTrim phone = "" then
    ({ ok := false, error := some "Name and phone number are required." }, s)
  else if !validatePhone phone then
    ({ ok := false,
       error := some "Invalid phone format. Use: +1-555-0101 or +919876543210" }, s)
  else
    ({ ok := true, error := none },
     { s with
       emergencyContacts := addContactList patientId name relation phone isPrimary now s.nextId s.emergencyContacts,
       nextId := s.nextId + 1 })

/-- The `fields` object accepted by `updateContact` (the keys its callers
supply); `none` means the key is absent, so the existing value is kept by
the spread merge. -/
structure ContactFields where
  name : Option String := none
  relation : Option String := none
  phone : Option String := none
  isPrimary : Option Bool := none
deriving DecidableEq

/-- The spread merge `{ ...old, ...fields, updatedAt: now }`. -/
def mergeFields (c : Contact) (f : ContactFields) (now : Nat) : Contact :=
  { c with
    name := f.name.getD c.name,
    relation := f.relation.getD c.relation,
    phone := f.phone.getD c.phone,
    isPrimary := f.isPrimary.getD c.isPrimary,
    updatedAt := some now }

/-- The indexed map `contacts.map((c, i) => i !== idx && c.patientId === pid
? { ...c, isPrimary: false } : c)`: demote every contact of the patient
except the one at position `idx`. -/
def demoteOthers (patientId : String) : Nat → List Contact → List Contact
  | _, [] => []
  | 0, c :: cs => c :: cs.map (demote patientId)
  | Nat.succ n, c :: cs => demote patientId c :: demoteOthers patientId n cs

/-- The successful-path list update of `updateContact`: single-primary
demotion when `fields.isPrimary` is truthy, then the spread merge at the
found index. -/
def updateContactList (fields : ContactFields) (now : Nat)
    (contacts : List Contact) (idx : Nat) : List Contact :=
  let old := (contacts[idx]?).getD default
  let pid := old.patientId
  let updated := if fields.isPrimary.getD false then
      demoteOthers pid idx contacts
    else contacts
  updated.set idx (mergeFields old fields now)

/-- `updateContact`: not-found check, phone validation when a (truthy)
phone is supplied, then the demote-and-merge update at the found index. -/
def updateContact (contactId : String) (fields : ContactFields) (now : Nat)
    (s : Store) : OpResult × Store :=
  match s.emergencyContacts.findIdx? (fun c => c.id == contactId) with
  | none => ({ ok := false, error := some "Contact not found." }, s)
  | some idx =>
    if (match fields.phone with
        | some p => decide (p ≠ "") && !validatePhone p
        | none => false) then
      ({ ok := false, error := some "Invalid phone format." }, s)
    else
      ({ ok := true, error := none },
       { s with emergencyContacts :=
           updateContactList fields now s.emergencyContacts idx })

/-- The mutation performed by `acknowledgeLog`: find the first entry with
the given id (`logs.findIndex`) and set its `acknowledgedAt` to the
current instant, unconditionally. -/
def setAckAt (logId : String) (now : Nat) : List AlertLogEntry → List AlertLogEntry
  | [] => []
  | l :: ls =>
    if l.id == logId then { l with acknowledgedAt := some now } :: ls
    else l :: setAckAt logId now ls

/-- `acknowledgeLog` (the `patientId` argument is only used for the
re-render and does not affect the mutation). -/
def acknowledgeLog (logId : String) (now : Nat) (s : Store) : Store :=
  { s with alertLogs := setAckAt logId now s.alertLogs }

/-- The per-entry function of `acknowledgeAllLogs`: stamp the entry iff it
belongs to the patient and is currently unacknowledged. -/
def ackEntry (patientId : String) (now : Nat) (l : AlertLogEntry) : AlertLogEntry :=
  if l.patientId == patientId && l.acknowledgedAt == none then
    { l with acknowledgedAt := some now }
  else l

/-- `acknowledgeAllLogs`: stamp every currently-unacknowledged entry of
the patient with the current instant. -/
def acknowledgeAllLogs (patientId : String) (now : Nat) (s : Store) : Store :=
  { s with alertLogs := s.alertLogs.map (ackEntry patientId now) }

/-- `clearAllNotifications`: hard-delete every notification of the
patient; the audit log is untouched. -/
def clearAllNotifications (patientId : String) (s : Store) : Store :=
  { s with notifications := s.notifications.filter (fun n => n.patientId != patientId) }

/-- Modelled from the spec: the character set named by the claim about
`validatePhone` — "digits, space, dash, parentheses, and period". (The
source regex uses `\s`, which also matches other whitespace such as tab.) -/
def claimPhoneChar (c : Char) : Bool :=
  c.isDigit || c = ' ' || c = '-' || c = '(' || c = ')' || c = '.'

/-- Modelled from the spec: the claim's characterization of the accepted
phone strings — an optional leading `'+'` followed by 7 to 20 characters
drawn from digits, space, dash, parentheses, and period, whose digit count
is between 7 and 15. -/
def validatePhoneClaim (phone : String) : Bool :=
  let body := match phone.data with
    | '+' :: rest => rest
    | cs => cs
  body.all claimPhoneChar && decide (7 ≤ body.length) && decide (body.length ≤ 20)
    && (let digits := phone.data.filter Char.isDigit
        decide (7 ≤ digits.length) && decide (digits.length ≤ 15))

/-- The amended characterization of `validatePhone`: after trimming the
surrounding whitespace, an optional leading `'+'` followed by 7 to 20
characters drawn from digits, whitespace, dash, parentheses, and period,
whose digit count is between 7 and 15. -/
def validatePhoneAmended (phone : String) : Bool :=
  let t := jsTrim phone
  let body := match t.data with
    | '+' :: rest => rest
    | cs => cs
  body.all phoneBodyChar && decide (7 ≤ body.length) && decide (body.length ≤ 20)
    && decide (7 ≤ (t.data.filter Char.isDigit).length)
    && decide ((t.data.filter Char.isDigit).length ≤ 15)

/-- How many contacts of a patient are marked primary. -/
def primaryCount (patientId : String) (cs : List Contact) : Nat :=
  cs.countP (fun c => c.patientId == patientId && c.isPrimary)

/-- Equality of audit-log entries on every field except `acknowledgedAt`. -/
def sameExceptAck (a b : AlertLogEntry) : Prop :=
  a.id = b.id ∧ a.patientId = b.patientId ∧ a.doseId = b.doseId ∧
  a.medName = b.medName ∧ a.medDosage = b.medDosage ∧
  a.scheduledTime = b.scheduledTime ∧ a.contactId = b.contactId ∧
  a.contactName = b.contactName ∧ a.contactPhone = b.contactPhone ∧
  a.contactRole = b.contactRole ∧ a.type = b.type ∧
  a.smsMessage = b.smsMessage ∧ a.deliveryStatus = b.deliveryStatus ∧
  a.provider = b.provider ∧ a.triggeredAt = b.triggeredAt

/-- Alert-cycle condition expressed over the read-only scan context. -/
def qualifiesCtx (ctx : DetectCtx) (d : Dose) : Bool :=
  !((ctx.now : Int) - ((d.scheduledTime.getD 0 : Nat) : Int) < (thresholdMs : Int)
      || ctx.alreadyNotified.contains d.id)
    && (ctx.meds.find? (fun m => m.id == d.medId)).isSome

theorem qualifiesCtx_detectCtx (mode tr pid now s patient d) :
    qualifiesCtx (detectCtx mode tr pid now s patient) d = doseQualifies pid now s d := rfl

theorem send_snd_notifications (mode tr dest body meta now a) :
    (SMSGateway.send mode tr dest body meta now a).2.notifications = a.notifications := by
  cases mode <;> cases tr <;> rfl

theorem send_snd_alertLogs_length (mode tr dest body meta now a) :
    (SMSGateway.send mode tr dest body meta now a).2.alertLogs.length =
      a.alertLogs.length + 1 := by
  cases mode <;> cases tr <;> rfl

theorem freshId_snd_notifications (a : AlertState) :
    a.freshId.2.notifications = a.notifications := rfl

theorem freshId_snd_alertLogs (a : AlertState) :
    a.freshId.2.alertLogs = a.alertLogs := rfl

/-- Membership in the dedup set from a notification carrying the dose id. -/
theorem mem_dedupSet_of_mem {s : Store} {x : Notif} {i : String}
    (hx : x ∈ s.notifications) (hd : x.doseId = some i) :
    (dedupSet s).contains i = true := by
  have : i ∈ dedupSet s := by
    simp only [dedupSet, List.mem_map, List.mem_filter]
    exact ⟨x, ⟨hx, by simp [hd]⟩, by simp [hd]⟩
  simpa [List.contains, List.elem_iff] using this

/-- Membership in the dedup set comes from some notification carrying the
dose id. -/
theorem exists_notif_of_mem_dedupSet {s : Store} {i : String}
    (h : (dedupSet s).contains i = true) :
    ∃ x ∈ s.notifications, x.doseId = some i := by
  rw [List.contains, List.elem_iff] at h
  simp only [dedupSet, List.mem_map, List.mem_filter] at h
  obtain ⟨x, ⟨hx, hsome⟩, hget⟩ := h
  refine ⟨x, hx, ?_⟩
  cases hds : x.doseId with
  | none => simp [hds] at hsome
  | some j => simp only [hds, Option.getD_some] at hget; simp [hds, hget]

theorem dedupSet_append (s : Store) (t : List Notif) :
    dedupSet { s with notifications := s.notifications ++ t } =
      dedupSet s ++ (t.filter (fun n => n.doseId.isSome)).map (fun n => n.doseId.getD "") := by
  simp [dedupSet, List.filter_append]

theorem contactsFold_spec (ctx : DetectCtx) (dose : Dose) (med : Medication)
    (smsBody : String) :
    ∀ (cs : List Contact) (ns : List Notif) (a : AlertState),
      ∃ t a2,
        cs.foldl (contactsStep ctx dose med smsBody) (ns, a) = (ns ++ t, a2)
        ∧ t.length = cs.length
        ∧ (∀ x ∈ t, x.type = NotifType.sms_sent ∧ x.doseId = some dose.id
            ∧ x.patientId = ctx.patientId)
        ∧ a2.notifications = a.notifications
        ∧ a2.alertLogs.length = a.alertLogs.length + cs.length := by
  intro cs
  induction cs with
  | nil => exact fun ns a => ⟨[], a, by simp, rfl, by simp, rfl, by simp⟩
  | cons c cs ih =>
    intro ns a
    set a1 := (SMSGateway.send ctx.mode ctx.transport c.phone smsBody
      (contactMeta ctx dose med c) ctx.now a).2 with ha1
    have hstep : contactsStep ctx dose med smsBody (ns, a) c =
        (ns ++ [smsNotifFor ctx dose c a1.freshId.1], a1.freshId.2) := rfl
    rw [List.foldl_cons, hstep]
    obtain ⟨t, a2, heq, hlen, hall, hnots, hlogs⟩ := ih (ns ++ [smsNotifFor ctx dose c a1.freshId.1]) a1.freshId.2
    refine ⟨smsNotifFor ctx dose c a1.freshId.1 :: t, a2, ?_, by simp [hlen], ?_, ?_, ?_⟩
    · rw [heq]; simp
    · intro x hx
      rcases List.mem_cons.mp hx with rfl | hx'
      · exact ⟨rfl, rfl, rfl⟩
      · exact hall x hx'
    · rw [hnots, freshId_snd_notifications, ha1, send_snd_notifications]
    · rw [hlogs, freshId_snd_alertLogs, ha1, send_snd_alertLogs_length]
      simp; omega

theorem caregiverStep_spec (ctx : DetectCtx) (dose : Dose) (med : Medication)
    (smsBody : String) (a : AlertState) :
    (caregiverStep ctx dose med smsBody a).2.notifications = a.notifications
    ∧ (caregiverStep ctx dose med smsBody a).2.alertLogs.length
        = a.alertLogs.length + (if ctx.caregiver.isSome then 1 else 0)
    ∧ ((ctx.caregiver = none ∧ (caregiverStep ctx dose med smsBody a).1 = none)
       ∨ (ctx.caregiver.isSome = true
           ∧ ∃ y, (caregiverStep ctx dose med smsBody a).1 = some y
             ∧ y.type = NotifType.caregiver_alert ∧ y.doseId = some dose.id
             ∧ y.patientId = ctx.patientId)) := by
  cases hcg : ctx.caregiver with
  | none => refine ⟨?_, ?_, Or.inl ⟨rfl, ?_⟩⟩ <;> simp [caregiverStep, hcg]
  | some cg =>
    have hred : caregiverStep ctx dose med smsBody a =
        (some { id := (SMSGateway.send ctx.mode ctx.transport (cg.phone.getD cg.email)
                  smsBody (cgMeta ctx dose med cg) ctx.now a).2.freshId.1,
                patientId := ctx.patientId, doseId := some dose.id,
                type := NotifType.caregiver_alert,
                message := "🏥 Caregiver " ++ cg.name ++
                  " has been automatically notified about the missed dose of " ++
                  med.name ++ ".",
                timestamp := ctx.now, read := false,
                contactId := none, caregiverId := ctx.caregiverId },
         (SMSGateway.send ctx.mode ctx.transport (cg.phone.getD cg.email)
            smsBody (cgMeta ctx dose med cg) ctx.now a).2.freshId.2) := by
      unfold caregiverStep; rw [hcg]
    refine ⟨?_, ?_, Or.inr ⟨by simp [hcg], ?_⟩⟩
    · rw [hred, freshId_snd_notifications, send_snd_notifications]
    · rw [hred, freshId_snd_alertLogs, send_snd_alertLogs_length]
      simp [hcg]
    · rw [hred]
      exact ⟨_, rfl, rfl, rfl, rfl⟩

theorem fireDose_spec (ctx : DetectCtx) (dose : Dose) (med : Medication)
    (n : Nat) (a : AlertState) :
    ∃ m t cgl aF,
      fireDose ctx dose med n a = (n + 1, aF)
      ∧ aF.notifications = a.notifications ++ (m :: (t ++ cgl))
      ∧ m.type = NotifType.missed_dose ∧ m.doseId = some dose.id
      ∧ m.patientId = ctx.patientId
      ∧ t.length = ctx.contacts.length
      ∧ (∀ x ∈ t, x.type = NotifType.sms_sent ∧ x.doseId = some dose.id
          ∧ x.patientId = ctx.patientId)
      ∧ ((cgl = [] ∧ ctx.caregiver = none)
         ∨ (∃ y, cgl = [y] ∧ y.type = NotifType.caregiver_alert
             ∧ y.doseId = some dose.id ∧ y.patientId = ctx.patientId
             ∧ ctx.caregiver.isSome = true))
      ∧ aF.alertLogs.length = a.alertLogs.length + ctx.contacts.length
          + (if ctx.caregiver.isSome then 1 else 0) := by
  obtain ⟨t, a2, hfold, hlen, hall, hnots, hlogs⟩ :=
    contactsFold_spec ctx dose med
      (SMS_TEMPLATE ctx.patientName med.name med.dosage
        (fmtTime (dose.scheduledTime.getD 0)))
      ctx.contacts [] a.freshId.2
  obtain ⟨hcn, hcl, hcg⟩ :=
    caregiverStep_spec ctx dose med
      (SMS_TEMPLATE ctx.patientName med.name med.dosage
        (fmtTime (dose.scheduledTime.getD 0))) a2
  have hfd : fireDose ctx dose med n a =
      (n + 1,
       { (caregiverStep ctx dose med
            (SMS_TEMPLATE ctx.patientName med.name med.dosage
              (fmtTime (dose.scheduledTime.getD 0))) a2).2 with
         notifications :=
           (caregiverStep ctx dose med
              (SMS_TEMPLATE ctx.patientName med.name med.dosage
                (fmtTime (dose.scheduledTime.getD 0))) a2).2.notifications ++
           (missedNotifFor ctx dose med a.freshId.1 ::
            t ++
              (match (caregiverStep ctx dose med
                  (SMS_TEMPLATE ctx.patientName med.name med.dosage
                    (fmtTime (dose.scheduledTime.getD 0))) a2).1 with
                | some n2 => [n2] | none => [])) }) := by
    simp only [fireDose]
    rw [hfold]
    simp
  rcases hcg with ⟨hnone, hfst⟩ | ⟨hsome, y, hfst, hyty, hydose, hypid⟩
  · refine ⟨missedNotifFor ctx dose med a.freshId.1,
      t, [], _, hfd, ?_, rfl, rfl, rfl, hlen, hall, Or.inl ⟨rfl, hnone⟩, ?_⟩
    · rw [hfst]
      rw [hcn, hnots, freshId_snd_notifications]
      simp
    · rw [hcl, hlogs, freshId_snd_alertLogs]
  · refine ⟨missedNotifFor ctx dose med a.freshId.1,
      t, [y], _, hfd, ?_, rfl, rfl, rfl, hlen, hall,
      Or.inr ⟨y, rfl, hyty, hydose, hypid, hsome⟩, ?_⟩
    · rw [hfst]
      rw [hcn, hnots, freshId_snd_notifications]
      simp
    · rw [hcl, hlogs, freshId_snd_alertLogs]

theorem processDose_skip (ctx : DetectCtx) (n : Nat) (a : AlertState) (d : Dose)
    (h : qualifiesCtx ctx d = false) :
    processDose ctx (n, a) d = (n, a) := by
  rw [qualifiesCtx] at h
  cases hC1 : ((ctx.now : Int) - ((d.scheduledTime.getD 0 : Nat) : Int) < (thresholdMs : Int)
      || ctx.alreadyNotified.contains d.id) with
  | true =>
    simp only [processDose, hC1]
    simp
  | false =>
    rw [hC1] at h
    simp only [Bool.not_false, Bool.true_and] at h
    have hfind : ctx.meds.find? (fun m => m.id == d.medId) = none := by
      cases hf : ctx.meds.find? (fun m => m.id == d.medId) with
      | none => rfl
      | some m => rw [hf] at h; simp at h
    simp only [processDose, hC1, hfind]
    simp

theorem processDose_fire (ctx : DetectCtx) (n : Nat) (a : AlertState) (d : Dose)
    (h : qualifiesCtx ctx d = true) :
    ∃ m t cgl aF,
      processDose ctx (n, a) d = (n + 1, aF)
      ∧ aF.notifications = a.notifications ++ (m :: (t ++ cgl))
      ∧ m.type = NotifType.missed_dose ∧ m.doseId = some d.id
      ∧ m.patientId = ctx.patientId
      ∧ t.length = ctx.contacts.length
      ∧ (∀ x ∈ t, x.type = NotifType.sms_sent ∧ x.doseId = some d.id
          ∧ x.patientId = ctx.patientId)
      ∧ ((cgl = [] ∧ ctx.caregiver = none)
         ∨ (∃ y, cgl = [y] ∧ y.type = NotifType.caregiver_alert
             ∧ y.doseId = some d.id ∧ y.patientId = ctx.patientId
             ∧ ctx.caregiver.isSome = true))
      ∧ aF.alertLogs.length = a.alertLogs.length + ctx.contacts.length
          + (if ctx.caregiver.isSome then 1 else 0) := by
  rw [qualifiesCtx] at h
  obtain ⟨hnc, hsome⟩ := Bool.and_eq_true_iff.mp h
  have hC1 : ((ctx.now : Int) - ((d.scheduledTime.getD 0 : Nat) : Int) < (thresholdMs : Int)
      || ctx.alreadyNotified.contains d.id) = false := by
    cases hx : ((ctx.now : Int) - ((d.scheduledTime.getD 0 : Nat) : Int) < (thresholdMs : Int)
      || ctx.alreadyNotified.contains d.id)
    · rfl
    · rw [hx] at hnc; simp at hnc
  obtain ⟨med, hmed⟩ := Option.isSome_iff_exists.mp hsome
  have hpd : processDose ctx (n, a) d = fireDose ctx d med n a := by
    simp only [processDose, hC1, hmed]
    simp
  rw [hpd]
  exact fireDose_spec ctx d med n a

theorem processDose_fst (ctx : DetectCtx) (n : Nat) (a : AlertState) (d : Dose) :
    (processDose ctx (n, a) d).1 = n + (if qualifiesCtx ctx d then 1 else 0) := by
  cases hq : qualifiesCtx ctx d with
  | false => rw [processDose_skip ctx n a d hq]; simp
  | true =>
    obtain ⟨m, t, cgl, aF, heq, _⟩ := processDose_fire ctx n a d hq
    rw [heq]; simp

theorem detectLoop_count (ctx : DetectCtx) :
    ∀ (ds : List Dose) (n : Nat) (a : AlertState),
      (ds.foldl (processDose ctx) (n, a)).1 = n + ds.countP (qualifiesCtx ctx) := by
  intro ds
  induction ds with
  | nil => intro n a; simp
  | cons d ds ih =>
    intro n a
    rw [List.foldl_cons, List.countP_cons]
    cases hq : qualifiesCtx ctx d with
    | false =>
      rw [processDose_skip ctx n a d hq, ih]
      simp [hq]
    | true =>
      obtain ⟨m, t, cgl, aF, heq, _⟩ := processDose_fire ctx n a d hq
      rw [heq, ih]
      simp [hq]
      omega

theorem detectLoop_notifs (ctx : DetectCtx) :
    ∀ (ds : List Dose) (n : Nat) (a : AlertState),
      ∃ t, (ds.foldl (processDose ctx) (n, a)).2.notifications = a.notifications ++ t
        ∧ (∀ x ∈ t, x.patientId = ctx.patientId
            ∧ ∃ dd ∈ ds, qualifiesCtx ctx dd = true ∧ x.doseId = some dd.id)
        ∧ (∀ dd ∈ ds, qualifiesCtx ctx dd = true
            → ∃ x ∈ t, x.type = NotifType.missed_dose ∧ x.doseId = some dd.id) := by
  intro ds
  induction ds with
  | nil =>
    intro n a
    exact ⟨[], by simp, by simp, by simp⟩
  | cons d ds ih =>
    intro n a
    rw [List.foldl_cons]
    cases hq : qualifiesCtx ctx d with
    | false =>
      rw [processDose_skip ctx n a d hq]
      obtain ⟨t, heq, hmem, hfind⟩ := ih n a
      refine ⟨t, heq, ?_, ?_⟩
      · intro x hx
        obtain ⟨hp, dd, hdd, hqd, hdose⟩ := hmem x hx
        exact ⟨hp, dd, List.mem_cons_of_mem _ hdd, hqd, hdose⟩
      · intro dd hdd hqd
        rcases List.mem_cons.mp hdd with heqd | hdd'
        · rw [heqd] at hqd; rw [hq] at hqd; cases hqd
        · exact hfind dd hdd' hqd
    | true =>
      obtain ⟨m, tb, cgl, aF, heq, hnot, hmty, hmdose, hmpid, htlen, htall, hcgl, hlogs⟩ :=
        processDose_fire ctx n a d hq
      rw [heq]
      obtain ⟨t2, heq2, hmem2, hfind2⟩ := ih (n + 1) aF
      refine ⟨(m :: (tb ++ cgl)) ++ t2, ?_, ?_, ?_⟩
      · rw [heq2, hnot, List.append_assoc]
      · intro x hx
        rcases List.mem_append.mp hx with hx1 | hx2
        · rcases List.mem_cons.mp hx1 with heqx | hx1'
          · exact heqx ▸ ⟨hmpid, d, List.mem_cons_self d ds, hq, hmdose⟩
          · rcases List.mem_append.mp hx1' with hxt | hxc
            · obtain ⟨_, hdose, hpid⟩ := htall x hxt
              exact ⟨hpid, d, List.mem_cons_self d ds, hq, hdose⟩
            · rcases hcgl with ⟨hnil, _⟩ | ⟨y, hy, hyty, hydose, hypid, _⟩
              · rw [hnil] at hxc; cases hxc
              · rw [hy] at hxc
                rcases List.mem_singleton.mp hxc with rfl
                exact ⟨hypid, d, List.mem_cons_self d ds, hq, hydose⟩
        · obtain ⟨hp, dd, hdd, hqd, hdose⟩ := hmem2 x hx2
          exact ⟨hp, dd, List.mem_cons_of_mem _ hdd, hqd, hdose⟩
      · intro dd hdd hqd
        rcases List.mem_cons.mp hdd with heqd | hdd'
        · refine ⟨m, ?_, hmty, heqd ▸ hmdose⟩
          exact List.mem_append.mpr (Or.inl (List.mem_cons_self _ _))
        · obtain ⟨x, hxt2, hxty, hxdose⟩ := hfind2 dd hdd' hqd
          exact ⟨x, List.mem_append.mpr (Or.inr hxt2), hxty, hxdose⟩

theorem withAlert_doses (s : Store) (a : AlertState) :
    (s.withAlert a).doses = s.doses := rfl

theorem withAlert_medications (s : Store) (a : AlertState) :
    (s.withAlert a).medications = s.medications := rfl

theorem withAlert_users (s : Store) (a : AlertState) :
    (s.withAlert a).users = s.users := rfl

theorem withAlert_contacts (s : Store) (a : AlertState) :
    (s.withAlert a).emergencyContacts = s.emergencyContacts := rfl

theorem withAlert_assignment (s : Store) (a : AlertState) :
    (s.withAlert a).caregiverAssignment = s.caregiverAssignment := rfl

theorem withAlert_notifications (s : Store) (a : AlertState) :
    (s.withAlert a).notifications = a.notifications := rfl

theorem withAlert_alertLogs (s : Store) (a : AlertState) :
    (s.withAlert a).alertLogs = a.alertLogs := rfl

theorem detect_found (mode : SmsMode) (tr : Except String Bool) (pid : String)
    (now : Nat) (s : Store) (u : User)
    (h : s.users.find? (fun x => x.id == pid) = some u) :
    detectMissedDoses mode tr pid now s =
      (((allDosesOf pid s).foldl (processDose (detectCtx mode tr pid now s u))
          (0, AlertState.ofStore s)).1,
       s.withAlert ((allDosesOf pid s).foldl (processDose (detectCtx mode tr pid now s u))
          (0, AlertState.ofStore s)).2) := by
  unfold detectMissedDoses
  rw [h]

theorem detect_notFound (mode : SmsMode) (tr : Except String Bool) (pid : String)
    (now : Nat) (s : Store)
    (h : s.users.find? (fun x => x.id == pid) = none) :
    detectMissedDoses mode tr pid now s = (0, s) := by
  unfold detectMissedDoses
  rw [h]

/-! Concrete fixtures used by witnesses and counterexamples. -/

/-- A dose of patient `p1`, scheduled at instant 0, not taken. -/
def fixDose : Dose :=
  { id := "d1", medId := "m1", patientId := "p1",
    scheduledTime := some 0, takenAt := none }

/-- The medication of `fixDose`. -/
def fixMed : Medication :=
  { id := "m1", patientId := "p1", name := "Aspirin", dosage := "100mg" }

/-- The patient. -/
def fixPatient : User :=
  { id := "p1", name := "Pat", phone := none, email := "pat@example.com" }

/-- The assigned caregiver. -/
def fixCare : User :=
  { id := "cg1", name := "Cara", phone := some "555-0102",
    email := "cara@example.com" }

/-- Emergency contact A (primary). -/
def fixContactA : Contact :=
  { id := "c1", patientId := "p1", name := "Alice", relation := "Sister",
    phone := "555-0101", isPrimary := true, notifiedAt := none,
    createdAt := none, updatedAt := none }

/-- Emergency contact B (not primary). -/
def fixContactB : Contact :=
  { id := "c2", patientId := "p1", name := "Bob", relation := "Friend",
    phone := "555-0103", isPrimary := false, notifiedAt := none,
    createdAt := none, updatedAt := none }

/-- A store with one overdue dose, its medication, two contacts and an
assigned caregiver; no notifications or audit entries yet. -/
def fixStore : Store :=
  { doses := [fixDose], medications := [fixMed],
    users := [fixPatient, fixCare],
    emergencyContacts := [fixContactA, fixContactB],
    caregiverAssignment := [("p1", "cg1")],
    notifications := [], alertLogs := [], nextId := 0 }

/-- `fixStore` with the medication list empty (dose points at a missing
medication). -/
def fixStoreNoMed : Store :=
  { fixStore with medications := [] }

/-- `fixStore` with no record for patient `ghost` but a dose, a medication
and a contact attributed to `ghost`. -/
def fixStoreGhost : Store :=
  { doses := [{ id := "d9", medId := "m1", patientId := "ghost",
                scheduledTime := some 0, takenAt := none }],
    medications := [fixMed], users := [fixPatient],
    emergencyContacts := [],
    caregiverAssignment := [], notifications := [], alertLogs := [],
    nextId := 0 }

/-- C6: every `SMSGateway.send` call — any provider mode, any transport
outcome — appends exactly one audit-log entry (and touches nothing else);
a thrown network/parse error in a real-provider mode is caught and
converted to a `failed` result instead of propagating; in simulation mode
the result is always `ok` with status `simulated`. -/
theorem C6_gateway_send (mode : SmsMode) (tr : Except String Bool)
    (dest body : String) (meta : SendMeta) (now : Nat) (a : AlertState) :
    (SMSGateway.send mode tr dest body meta now a).2.alertLogs.length
        = a.alertLogs.length + 1
    ∧ (SMSGateway.send mode tr dest body meta now a).2.notifications
        = a.notifications
    ∧ (mode = SmsMode.simulation →
        (SMSGateway.send mode tr dest body meta now a).1.ok = true
        ∧ (SMSGateway.send mode tr dest body meta now a).1.status
            = DeliveryStatus.simulated)
    ∧ (∀ e, mode ≠ SmsMode.simulation → tr = Except.error e →
        (SMSGateway.send mode tr dest body meta now a).1.ok = false
        ∧ (SMSGateway.send mode tr dest body meta now a).1.status
            = DeliveryStatus.failed) := by
  refine ⟨send_snd_alertLogs_length mode tr dest body meta now a,
    send_snd_notifications mode tr dest body meta now a, ?_, ?_⟩
  · intro h
    subst h
    exact ⟨rfl, rfl⟩
  · intro e hne htr
    subst htr
    cases mode with
    | simulation => cases hne rfl
    | twilio => exact ⟨rfl, rfl⟩
    | fast2sms => exact ⟨rfl, rfl⟩

/-- Witness for C6 at concrete inputs: a twilio-mode send whose transport
throws still logs one entry and reports `failed`; a simulation-mode send
reports `simulated`. -/
theorem C6_gateway_send_witness :
    (SMSGateway.send SmsMode.twilio (Except.error "boom") "555-0101" "msg"
        { patientId := "p1", doseId := "d1", medName := "Aspirin",
          medDosage := "100mg", scheduledTime := some 0, contactId := "c1",
          contactName := "Alice", contactRole := "Sister",
          type := AlertType.emergency_contact } 7
        ⟨[], [], 0⟩).2.alertLogs.length = 0 + 1
    ∧ (SMSGateway.send SmsMode.twilio (Except.error "boom") "555-0101" "msg"
        { patientId := "p1", doseId := "d1", medName := "Aspirin",
          medDosage := "100mg", scheduledTime := some 0, contactId := "c1",
          contactName := "Alice", contactRole := "Sister",
          type := AlertType.emergency_contact } 7
        ⟨[], [], 0⟩).1.status = DeliveryStatus.failed
    ∧ (SMSGateway.send SmsMode.simulation (Except.error "boom") "555-0101" "msg"
        { patientId := "p1", doseId := "d1", medName := "Aspirin",
          medDosage := "100mg", scheduledTime := some 0, contactId := "c1",
          contactName := "Alice", contactRole := "Sister",
          type := AlertType.emergency_contact } 7
        ⟨[], [], 0⟩).1.status = DeliveryStatus.simulated := by
  refine ⟨(C6_gateway_send SmsMode.twilio (Except.error "boom") "555-0101" "msg"
      _ 7 ⟨[], [], 0⟩).1, ?_, ?_⟩
  · exact ((C6_gateway_send SmsMode.twilio (Except.error "boom") "555-0101" "msg"
      _ 7 ⟨[], [], 0⟩).2.2.2 "boom" (by decide) rfl).2
  · exact ((C6_gateway_send SmsMode.simulation (Except.error "boom") "555-0101" "msg"
      _ 7 ⟨[], [], 0⟩).2.2.1 rfl).2

/-- C9 (amended): `validatePhone` accepts exactly the strings which, after
trimming surrounding whitespace, consist of an optional leading `'+'`
followed by 7–20 characters drawn from digits, whitespace (the regex class
`\s`, not only the space character), dash, parentheses, and period, with
digit count 7–15; `"+919876543210"` and `"555-0101"` validate true and
`"abc"` false; and `addContact` rejects — `ok = false`, store unchanged —
any contact whose (trimmed) name or phone is empty or whose phone fails
the validator. -/
theorem C9_validatePhone_addContact :
    (∀ s, validatePhone s = validatePhoneAmended s)
    ∧ validatePhone "+919876543210" = true
    ∧ validatePhone "abc" = false
    ∧ validatePhone "555-0101" = true
    ∧ (∀ pid name rel phone prim now st,
        (jsTrim name = "" ∨ jsTrim phone = "" ∨ validatePhone phone = false) →
        (addContact pid name rel phone prim now st).1.ok = false
        ∧ (addContact pid name rel phone prim now st).2 = st) := by
  refine ⟨?_, by decide, by decide, by decide, ?_⟩
  · intro s
    unfold validatePhone validatePhoneAmended phoneRegexTest
    cases hall : (match (jsTrim s).data with
        | '+' :: rest => rest
        | cs => cs).all phoneBodyChar <;>
      cases h7 : decide (7 ≤ (match (jsTrim s).data with
        | '+' :: rest => rest
        | cs => cs).length) <;>
      cases h20 : decide ((match (jsTrim s).data with
        | '+' :: rest => rest
        | cs => cs).length ≤ 20) <;>
      simp [hall, h7, h20]
  · intro pid name rel phone prim now st h
    by_cases hn : jsTrim name = ""
    · constructor <;> simp [addContact, hn]
    · by_cases hp : jsTrim phone = ""
      · constructor <;> simp [addContact, hp]
      · have hv : validatePhone phone = false := by
          rcases h with h1 | h2 | h3
          · exact absurd h1 hn
          · exact absurd h2 hp
          · exact h3
        constructor <;> simp [addContact, hn, hp, hv]

/-- Counterexample for C9 as frozen: `"555\t0101"` contains a tab, which
is not among "digits, space, dash, parentheses, and period", yet the
source regex class `\s` matches it, so `validatePhone` accepts a string
outside the claim's character set. -/
theorem C9_counterexample :
    validatePhone "555\t0101" = true
    ∧ validatePhoneClaim "555\t0101" = false := by
  exact ⟨by decide, by decide⟩

/-- Witness for C9 at concrete inputs: the amended characterization at one
input, and a rejected `addContact` with an invalid phone leaving the store
unchanged. -/
theorem C9_witness :
    validatePhone "+919876543210" = validatePhoneAmended "+919876543210"
    ∧ (addContact "p1" "Alice" "Sister" "abc" false 0 fixStore).1.ok = false
    ∧ (addContact "p1" "Alice" "Sister" "abc" false 0 fixStore).2 = fixStore := by
  refine ⟨C9_validatePhone_addContact.1 "+919876543210", ?_, ?_⟩
  · exact (C9_validatePhone_addContact.2.2.2.2 "p1" "Alice" "Sister" "abc" false 0
      fixStore (Or.inr (Or.inr (by decide)))).1
  · exact (C9_validatePhone_addContact.2.2.2.2 "p1" "Alice" "Sister" "abc" false 0
      fixStore (Or.inr (Or.inr (by decide)))).2

/-- C5 (amended, v3 engine): when the patientId resolves to no user
record, the v3 `detectMissedDoses` returns 0 and the whole store — in
particular the Notification, AlertLog and EmergencyContact collections —
is returned unchanged. (The legacy variant has no such check; see the
counterexample.) -/
theorem C5_notFound_noSideEffects (mode : SmsMode) (tr : Except String Bool)
    (pid : String) (now : Nat) (s : Store)
    (h : s.users.find? (fun u => u.id == pid) = none) :
    (detectMissedDoses mode tr pid now s).1 = 0
    ∧ (detectMissedDoses mode tr pid now s).2 = s := by
  rw [detect_notFound mode tr pid now s h]
  exact ⟨rfl, rfl⟩

/-- Counterexample for C5 as frozen: the legacy `detectMissedDoses` — one
of the two cited implementations — does not check patient existence: for
the unknown patient `ghost` with a stale dose on file it returns 1 and
appends a notification. -/
theorem C5_counterexample :
    fixStoreGhost.users.find? (fun u => u.id == "ghost") = none
    ∧ (detectMissedDosesLegacy "ghost" thresholdMs fixStoreGhost).1 = 1
    ∧ (detectMissedDosesLegacy "ghost" thresholdMs fixStoreGhost).2.notifications
        ≠ fixStoreGhost.notifications := by
  exact ⟨by decide, by decide, by decide⟩

/-- Witness for C5 at a concrete input: the v3 engine on the same unknown
patient returns 0 with the store unchanged. -/
theorem C5_witness :
    (detectMissedDoses SmsMode.simulation (Except.ok true) "ghost" thresholdMs
        fixStoreGhost).1 = 0
    ∧ (detectMissedDoses SmsMode.simulation (Except.ok true) "ghost" thresholdMs
        fixStoreGhost).2 = fixStoreGhost :=
  C5_notFound_noSideEffects SmsMode.simulation (Except.ok true) "ghost" thresholdMs
    fixStoreGhost (by decide)

/-- C4 (amended, v3 engine): when the patient exists, the v3
`detectMissedDoses` returns the number of scanned doses that fired a new
alert cycle this call — one per qualifying dose, independent of how many
notifications or messages the cycle produced. (The legacy variant instead
returns the number of notification records created; see the
counterexample.) -/
theorem C4_returns_dose_count (mode : SmsMode) (tr : Except String Bool)
    (pid : String) (now : Nat) (s : Store) (u : User)
    (h : s.users.find? (fun x => x.id == pid) = some u) :
    (detectMissedDoses mode tr pid now s).1
      = ((allDosesOf pid s).filter (doseQualifies pid now s)).length := by
  rw [detect_found mode tr pid now s u h]
  show ((allDosesOf pid s).foldl (processDose (detectCtx mode tr pid now s u))
      (0, AlertState.ofStore s)).1 = _
  rw [detectLoop_count]
  rw [List.countP_eq_length_filter]
  have hfun : qualifiesCtx (detectCtx mode tr pid now s u) = doseQualifies pid now s := by
    funext d
    exact qualifiesCtx_detectCtx mode tr pid now s u d
  rw [hfun]
  simp

/-- Counterexample for C4 as frozen: in the legacy variant — one of the
two cited implementations — a single newly missed dose for a patient with
2 contacts returns 3 (the created notifications), not 1 (the distinct
doses that triggered). -/
theorem C4_counterexample :
    ((allDosesOf "p1" fixStore).filter (doseQualifies "p1" thresholdMs fixStore)).length = 1
    ∧ (detectMissedDosesLegacy "p1" thresholdMs fixStore).1 = 3 := by
  exact ⟨by decide, by decide⟩

/-- Witness for C4 at a concrete input: the v3 engine on one newly missed
dose with 2 contacts and a caregiver returns the dose count, which is 1. -/
theorem C4_witness :
    (detectMissedDoses SmsMode.simulation (Except.ok true) "p1" thresholdMs
        fixStore).1
      = ((allDosesOf "p1" fixStore).filter
          (doseQualifies "p1" thresholdMs fixStore)).length
    ∧ ((allDosesOf "p1" fixStore).filter
        (doseQualifies "p1" thresholdMs fixStore)).length = 1 := by
  refine ⟨C4_returns_dose_count SmsMode.simulation (Except.ok true) "p1" thresholdMs
    fixStore fixPatient (by decide), by decide⟩

theorem detectCtx_already (mode tr pid now s u) :
    (detectCtx mode tr pid now s u).alreadyNotified = dedupSet s := rfl

theorem detectCtx_meds (mode tr pid now s u) :
    (detectCtx mode tr pid now s u).meds = s.medications := rfl

theorem detectCtx_now (mode tr pid now s u) :
    (detectCtx mode tr pid now s u).now = now := rfl

theorem detectCtx_patientId (mode tr pid now s u) :
    (detectCtx mode tr pid now s u).patientId = pid := rfl

theorem detectCtx_contacts (mode tr pid now s u) :
    (detectCtx mode tr pid now s u).contacts
      = s.emergencyContacts.filter (fun c => c.patientId == pid) := rfl

theorem qualifiesCtx_true_iff (ctx : DetectCtx) (d : Dose) :
    qualifiesCtx ctx d = true ↔
      ¬((ctx.now : Int) - ((d.scheduledTime.getD 0 : Nat) : Int) < (thresholdMs : Int))
      ∧ ctx.alreadyNotified.contains d.id = false
      ∧ (ctx.meds.find? (fun m => m.id == d.medId)).isSome = true := by
  rw [qualifiesCtx]
  cases hlt : ((ctx.now : Int) - ((d.scheduledTime.getD 0 : Nat) : Int) < (thresholdMs : Int) : Bool) <;>
    cases hc : ctx.alreadyNotified.contains d.id <;>
    cases hs : (ctx.meds.find? (fun m => m.id == d.medId)).isSome <;>
    simp_all [decide_eq_true_eq]

theorem contains_mono_append {l l2 : List String} {i : String}
    (h : l.contains i = true) : (l ++ l2).contains i = true := by
  rw [List.contains, List.elem_iff] at h ⊢
  exact List.mem_append.mpr (Or.inl h)

theorem dedupSet_withAlert_append (s : Store) (a : AlertState) (T : List Notif)
    (h : a.notifications = s.notifications ++ T) :
    dedupSet (s.withAlert a)
      = dedupSet s ++ (T.filter (fun n => n.doseId.isSome)).map
          (fun n => n.doseId.getD "") := by
  simp only [dedupSet, Store.withAlert, h, List.filter_append, List.map_append]

/-- C1: running the v3 detector twice in immediate succession (same scan
instant, no intervening store changes other than those the first call
itself made) yields 0 new alerts on the second call: every dose alerted by
the first call persisted a notification carrying its doseId, and the dedup
set is recomputed from the persisted notifications at the start of the
second call. -/
theorem C1_detect_idempotent (mode : SmsMode) (tr : Except String Bool)
    (pid : String) (now : Nat) (s : Store) :
    (detectMissedDoses mode tr pid now
      (detectMissedDoses mode tr pid now s).2).1 = 0 := by
  cases hu : s.users.find? (fun x => x.id == pid) with
  | none =>
    rw [detect_notFound mode tr pid now s hu]
    show (detectMissedDoses mode tr pid now s).1 = 0
    rw [detect_notFound mode tr pid now s hu]
  | some u =>
    rw [detect_found mode tr pid now s u hu]
    show (detectMissedDoses mode tr pid now
      (s.withAlert ((allDosesOf pid s).foldl
        (processDose (detectCtx mode tr pid now s u))
        (0, AlertState.ofStore s)).2)).1 = 0
    set a1 := ((allDosesOf pid s).foldl
      (processDose (detectCtx mode tr pid now s u)) (0, AlertState.ofStore s)).2 with ha1
    have hu1 : (s.withAlert a1).users.find? (fun x => x.id == pid) = some u := by
      rw [withAlert_users]; exact hu
    rw [detect_found mode tr pid now (s.withAlert a1) u hu1]
    show ((allDosesOf pid (s.withAlert a1)).foldl
      (processDose (detectCtx mode tr pid now (s.withAlert a1) u))
      (0, AlertState.ofStore (s.withAlert a1))).1 = 0
    rw [detectLoop_count]
    have hdall : allDosesOf pid (s.withAlert a1) = allDosesOf pid s := rfl
    rw [hdall, Nat.zero_add, List.countP_eq_zero]
    intro d hd
    obtain ⟨T, hT, hmemT, hfindT⟩ := detectLoop_notifs (detectCtx mode tr pid now s u)
      (allDosesOf pid s) 0 (AlertState.ofStore s)
    have hnotifs1 : (s.withAlert a1).notifications = s.notifications ++ T := by
      rw [withAlert_notifications, ha1, hT]; rfl
    intro hq2
    rw [qualifiesCtx_true_iff] at hq2
    obtain ⟨hlt2, hc2, hs2⟩ := hq2
    rw [detectCtx_now] at hlt2
    rw [detectCtx_already] at hc2
    rw [detectCtx_meds, withAlert_medications] at hs2
    cases hq1 : qualifiesCtx (detectCtx mode tr pid now s u) d with
    | true =>
      obtain ⟨x, hxT, hxty, hxdose⟩ := hfindT d hd hq1
      have hxmem : x ∈ (s.withAlert a1).notifications := by
        rw [hnotifs1]
        exact List.mem_append.mpr (Or.inr hxT)
      have hcont := mem_dedupSet_of_mem hxmem hxdose
      rw [hcont] at hc2
      cases hc2
    | false =>
      rw [Bool.eq_false_iff] at hq1
      apply hq1
      rw [qualifiesCtx_true_iff]
      refine ⟨by rw [detectCtx_now]; exact hlt2, ?_, ?_⟩
      · rw [detectCtx_already]
        cases hc1 : (dedupSet s).contains d.id with
        | false => rfl
        | true =>
          have hca : (dedupSet (s.withAlert a1)).contains d.id = true := by
            rw [dedupSet_withAlert_append s a1 T (by rw [ha1, hT]; rfl)]
            exact contains_mono_append hc1
          rw [hca] at hc2
          cases hc2
      · rw [detectCtx_meds]
        exact hs2

/-- C2 (amended): for every dose of an existing patient with `takenAt`
null, a non-null `scheduledTime`, no persisted notification carrying its
doseId, and a medId that resolves to a medication (the source silently
skips a dose whose medication is missing — the condition the frozen claim
omits), the v3 detector fires an alert for it iff
`now − scheduledTime ≥ THRESHOLD` (30 minutes in ms); dose ids are assumed
unique in the store. In particular a dose overdue by `THRESHOLD − 1` ms
produces no alert and one overdue by exactly `THRESHOLD` produces one
(see the witness). -/
theorem C2_threshold_boundary (mode : SmsMode) (tr : Except String Bool)
    (pid : String) (now : Nat) (s : Store) (d : Dose) (t : Nat) (u : User)
    (hu : s.users.find? (fun x => x.id == pid) = some u)
    (hmem : d ∈ s.doses) (hpid : d.patientId = pid) (htaken : d.takenAt = none)
    (hsched : d.scheduledTime = some t)
    (hnon : ∀ n ∈ s.notifications, n.doseId ≠ some d.id)
    (hmed : (s.medications.find? (fun m => m.id == d.medId)).isSome = true)
    (huniq : ∀ d2 ∈ s.doses, d2.id = d.id → d2 = d) :
    (∃ x ∈ (detectMissedDoses mode tr pid now s).2.notifications,
        x.type = NotifType.missed_dose ∧ x.doseId = some d.id)
      ↔ (thresholdMs : Int) ≤ (now : Int) - (t : Int) := by
  have hdmem : d ∈ allDosesOf pid s := by
    rw [allDosesOf, List.mem_filter]
    refine ⟨hmem, ?_⟩
    simp [hpid, htaken, hsched]
  have hcont : (dedupSet s).contains d.id = false := by
    cases hc : (dedupSet s).contains d.id with
    | false => rfl
    | true =>
      obtain ⟨x, hx, hxd⟩ := exists_notif_of_mem_dedupSet hc
      exact absurd hxd (hnon x hx)
  rw [detect_found mode tr pid now s u hu]
  obtain ⟨T, hT, hmemT, hfindT⟩ := detectLoop_notifs (detectCtx mode tr pid now s u)
    (allDosesOf pid s) 0 (AlertState.ofStore s)
  have hnots : (s.withAlert ((allDosesOf pid s).foldl
      (processDose (detectCtx mode tr pid now s u)) (0, AlertState.ofStore s)).2).notifications
      = s.notifications ++ T := by
    rw [withAlert_notifications, hT]; rfl
  constructor
  · rintro ⟨x, hxmem, hxty, hxdose⟩
    rw [hnots] at hxmem
    rcases List.mem_append.mp hxmem with hxs | hxT
    · exact absurd hxdose (hnon x hxs)
    · obtain ⟨_, dd, hddmem, hddq, hdddose⟩ := hmemT x hxT
      have hddid : dd.id = d.id := by
        rw [hxdose] at hdddose
        exact (Option.some.injEq _ _).mp hdddose.symm
      have hdd_eq : dd = d := by
        apply huniq dd ?_ hddid
        exact (List.mem_filter.mp hddmem).1
      rw [hdd_eq] at hddq
      rw [qualifiesCtx_true_iff] at hddq
      obtain ⟨hlt, _, _⟩ := hddq
      rw [detectCtx_now] at hlt
      rw [hsched] at hlt
      simpa using Int.not_lt.mp hlt
  · intro hover
    have hq : qualifiesCtx (detectCtx mode tr pid now s u) d = true := by
      rw [qualifiesCtx_true_iff]
      refine ⟨?_, ?_, ?_⟩
      · rw [detectCtx_now, hsched]
        simpa using Int.not_lt.mpr hover
      · rw [detectCtx_already]; exact hcont
      · rw [detectCtx_meds]; exact hmed
    obtain ⟨x, hxT, hxty, hxdose⟩ := hfindT d hdmem hq
    refine ⟨x, ?_, hxty, hxdose⟩
    rw [hnots]
    exact List.mem_append.mpr (Or.inr hxT)

/-- Counterexample for C2 as frozen: a dose overdue by exactly the
threshold, not taken, scheduled, never notified — but whose medication
record is missing — fires no alert: the detector returns 0 and appends no
notification, contradicting the claim's unconditional "fires an alert iff
overdue ≥ THRESHOLD". -/
theorem C2_counterexample :
    ((thresholdMs : Int) ≤ ((thresholdMs : Nat) : Int) - ((0 : Nat) : Int))
    ∧ fixStoreNoMed.notifications = []
    ∧ fixDose ∈ fixStoreNoMed.doses ∧ fixDose.takenAt = none
    ∧ fixDose.scheduledTime = some 0
    ∧ (detectMissedDoses SmsMode.simulation (Except.ok true) "p1" thresholdMs
        fixStoreNoMed).1 = 0
    ∧ (detectMissedDoses SmsMode.simulation (Except.ok true) "p1" thresholdMs
        fixStoreNoMed).2.notifications = [] := by
  refine ⟨by decide, by decide, by decide, by decide, by decide, by decide, by decide⟩

/-- Witness for C2 at concrete inputs: with the medication present, the
dose overdue by exactly THRESHOLD fires, and the same dose overdue by
THRESHOLD − 1 ms does not. -/
theorem C2_witness :
    (∃ x ∈ (detectMissedDoses SmsMode.simulation (Except.ok true) "p1" thresholdMs
        fixStore).2.notifications,
      x.type = NotifType.missed_dose ∧ x.doseId = some fixDose.id)
    ∧ ¬(∃ x ∈ (detectMissedDoses SmsMode.simulation (Except.ok true) "p1"
          (thresholdMs - 1) fixStore).2.notifications,
        x.type = NotifType.missed_dose ∧ x.doseId = some fixDose.id) := by
  constructor
  · exact (C2_threshold_boundary SmsMode.simulation (Except.ok true) "p1" thresholdMs
      fixStore fixDose 0 fixPatient (by decide) (by decide) (by decide) (by decide)
      (by decide) (by decide) (by decide) (by decide)).mpr (by decide)
  · intro hx
    have := (C2_threshold_boundary SmsMode.simulation (Except.ok true) "p1"
      (thresholdMs - 1) fixStore fixDose 0 fixPatient (by decide) (by decide)
      (by decide) (by decide) (by decide) (by decide) (by decide) (by decide)).mp hx
    revert this
    decide

/-- C10: `clearAllNotifications` erases the detector's dedup history. For
an existing patient with a dose that already has persisted notifications
carrying its doseId (all belonging to that patient, as the detector
creates them), that is still untaken, scheduled, overdue by at least the
threshold, and whose medication resolves: clearing all of the patient's
notifications and then running the v3 detector fires a second alert cycle
for the same dose — the result counts at least one dose and contains a
fresh `missed_dose` notification with that doseId. -/
theorem C10_clear_then_refire (mode : SmsMode) (tr : Except String Bool)
    (pid : String) (now : Nat) (s : Store) (d : Dose) (t : Nat) (u : User)
    (hu : s.users.find? (fun x => x.id == pid) = some u)
    (hmem : d ∈ s.doses) (hpid : d.patientId = pid) (htaken : d.takenAt = none)
    (hsched : d.scheduledTime = some t)
    (hover : (thresholdMs : Int) ≤ (now : Int) - (t : Int))
    (hmed : (s.medications.find? (fun m => m.id == d.medId)).isSome = true)
    (halready : ∃ n ∈ s.notifications, n.doseId = some d.id)
    (hown : ∀ n ∈ s.notifications, n.doseId = some d.id → n.patientId = pid) :
    0 < (detectMissedDoses mode tr pid now (clearAllNotifications pid s)).1
    ∧ ∃ x ∈ (detectMissedDoses mode tr pid now
          (clearAllNotifications pid s)).2.notifications,
        x.type = NotifType.missed_dose ∧ x.doseId = some d.id := by
  set s1 := clearAllNotifications pid s with hs1
  have husers : s1.users = s.users := rfl
  have hdoses : s1.doses = s.doses := rfl
  have hmeds : s1.medications = s.medications := rfl
  have hu1 : s1.users.find? (fun x => x.id == pid) = some u := by
    rw [husers]; exact hu
  have hdmem : d ∈ allDosesOf pid s1 := by
    rw [allDosesOf, List.mem_filter, hdoses]
    refine ⟨hmem, ?_⟩
    simp [hpid, htaken, hsched]
  have hcont : (dedupSet s1).contains d.id = false := by
    cases hc : (dedupSet s1).contains d.id with
    | false => rfl
    | true =>
      obtain ⟨x, hx, hxd⟩ := exists_notif_of_mem_dedupSet hc
      have hxfil : x ∈ s.notifications.filter (fun n => n.patientId != pid) := hx
      rw [List.mem_filter] at hxfil
      obtain ⟨hxs, hxne⟩ := hxfil
      have := hown x hxs hxd
      rw [this] at hxne
      simp at hxne
  have hq : qualifiesCtx (detectCtx mode tr pid now s1 u) d = true := by
    rw [qualifiesCtx_true_iff]
    refine ⟨?_, ?_, ?_⟩
    · rw [detectCtx_now, hsched]
      simpa using Int.not_lt.mpr hover
    · rw [detectCtx_already]; exact hcont
    · rw [detectCtx_meds, hmeds]; exact hmed
  rw [detect_found mode tr pid now s1 u hu1]
  obtain ⟨T, hT, hmemT, hfindT⟩ := detectLoop_notifs (detectCtx mode tr pid now s1 u)
    (allDosesOf pid s1) 0 (AlertState.ofStore s1)
  constructor
  · show 0 < ((allDosesOf pid s1).foldl (processDose (detectCtx mode tr pid now s1 u))
      (0, AlertState.ofStore s1)).1
    rw [detectLoop_count, Nat.zero_add]
    rw [List.countP_pos_iff]
    exact ⟨d, hdmem, hq⟩
  · obtain ⟨x, hxT, hxty, hxdose⟩ := hfindT d hdmem hq
    refine ⟨x, ?_, hxty, hxdose⟩
    show x ∈ (s1.withAlert ((allDosesOf pid s1).foldl
      (processDose (detectCtx mode tr pid now s1 u)) (0, AlertState.ofStore s1)).2).notifications
    rw [withAlert_notifications, hT]
    exact List.mem_append.mpr (Or.inr hxT)

/-- Witness for C10 at a concrete input: after a first scan has alerted
the dose (so a notification with its doseId is persisted and a second
scan alone is idempotent), clear-all followed by a scan fires again. -/
theorem C10_witness :
    0 < (detectMissedDoses SmsMode.simulation (Except.ok true) "p1" thresholdMs
        (clearAllNotifications "p1"
          (detectMissedDoses SmsMode.simulation (Except.ok true) "p1" thresholdMs
            fixStore).2)).1 :=
  (C10_clear_then_refire SmsMode.simulation (Except.ok true) "p1" thresholdMs
    (detectMissedDoses SmsMode.simulation (Except.ok true) "p1" thresholdMs fixStore).2
    fixDose 0 fixPatient (by decide) (by decide) (by decide) (by decide) (by decide)
    (by decide) (by decide) (by decide) (by decide)).1

/-- C3: for an existing patient whose scan finds exactly one dose, which
fires (overdue past the threshold, not deduplicated, medication resolves),
with N emergency contacts and an assigned caregiver that resolves to a
user: the v3 detector appends exactly one `missed_dose` notification, N
`sms_sent` notifications and one `caregiver_alert` notification (N + 2
records in all), and appends exactly N + 1 audit-log entries — one per
gateway invocation — and returns 1. -/
theorem C3_fanout_completeness (mode : SmsMode) (tr : Except String Bool)
    (pid : String) (now : Nat) (s : Store) (u : User) (d : Dose)
    (cgid : String) (cg : User)
    (hu : s.users.find? (fun x => x.id == pid) = some u)
    (hdoses : allDosesOf pid s = [d])
    (hq : doseQualifies pid now s d = true)
    (hassign : (s.caregiverAssignment.find? (fun kv => kv.1 == pid)).map
        (fun kv => kv.2) = some cgid)
    (hcguser : s.users.find? (fun x => x.id == cgid) = some cg) :
    (detectMissedDoses mode tr pid now s).1 = 1
    ∧ (∃ T, (detectMissedDoses mode tr pid now s).2.notifications
          = s.notifications ++ T
        ∧ T.length = (s.emergencyContacts.filter
            (fun c => c.patientId == pid)).length + 2
        ∧ T.countP (fun x => x.type == NotifType.missed_dose) = 1
        ∧ T.countP (fun x => x.type == NotifType.sms_sent)
            = (s.emergencyContacts.filter (fun c => c.patientId == pid)).length
        ∧ T.countP (fun x => x.type == NotifType.caregiver_alert) = 1)
    ∧ (detectMissedDoses mode tr pid now s).2.alertLogs.length
        = s.alertLogs.length
          + ((s.emergencyContacts.filter (fun c => c.patientId == pid)).length + 1) := by
  have hcg : (detectCtx mode tr pid now s u).caregiver = some cg := by
    show (match (s.caregiverAssignment.find? (fun kv => kv.1 == pid)).map
        (fun kv => kv.2) with
      | some cgx => s.users.find? (fun x => x.id == cgx)
      | none => none) = some cg
    rw [hassign]
    exact hcguser
  have hqc : qualifiesCtx (detectCtx mode tr pid now s u) d = true := by
    rw [qualifiesCtx_detectCtx]; exact hq
  obtain ⟨m, t, cgl, aF, heq, hnot, hmty, hmdose, hmpid, htlen, htall, hcgl, hlogs⟩ :=
    processDose_fire (detectCtx mode tr pid now s u) 0 (AlertState.ofStore s) d hqc
  have hcgr : ∃ y, cgl = [y] ∧ y.type = NotifType.caregiver_alert
      ∧ y.doseId = some d.id
      ∧ y.patientId = (detectCtx mode tr pid now s u).patientId
      ∧ (detectCtx mode tr pid now s u).caregiver.isSome = true := by
    rcases hcgl with ⟨_, hnone⟩ | h
    · rw [hcg] at hnone; cases hnone
    · exact h
  obtain ⟨y, hy, hyty, hydose, hypid, _⟩ := hcgr
  rw [detect_found mode tr pid now s u hu, hdoses]
  have hfold : List.foldl (processDose (detectCtx mode tr pid now s u))
      (0, AlertState.ofStore s) [d] = (1, aF) := by
    rw [List.foldl_cons, List.foldl_nil, heq]
  rw [hfold]
  have hN : t.length = (s.emergencyContacts.filter
      (fun c => c.patientId == pid)).length := by
    rw [htlen, detectCtx_contacts]
  refine ⟨rfl, ⟨m :: (t ++ cgl), ?_, ?_, ?_, ?_, ?_⟩, ?_⟩
  · rw [withAlert_notifications, hnot]; rfl
  · rw [hy]
    simp [hN]
  · rw [List.countP_cons_of_pos _ _ (by simp [hmty]), hy, List.countP_append]
    have h0 : t.countP (fun x => x.type == NotifType.missed_dose) = 0 := by
      rw [List.countP_eq_zero]
      intro x hx
      obtain ⟨hty, _, _⟩ := htall x hx
      simp [hty]
    rw [h0]
    simp [hyty]
  · rw [List.countP_cons_of_neg _ _ (by simp [hmty]), hy, List.countP_append]
    have hT : t.countP (fun x => x.type == NotifType.sms_sent) = t.length := by
      rw [List.countP_eq_length]
      intro x hx
      obtain ⟨hty, _, _⟩ := htall x hx
      simp [hty]
    rw [hT, hN]
    simp [hyty]
  · rw [List.countP_cons_of_neg _ _ (by simp [hmty]), hy, List.countP_append]
    have h0 : t.countP (fun x => x.type == NotifType.caregiver_alert) = 0 := by
      rw [List.countP_eq_zero]
      intro x hx
      obtain ⟨hty, _, _⟩ := htall x hx
      simp [hty]
    rw [h0]
    simp [hyty]
  · rw [withAlert_alertLogs, hlogs, detectCtx_contacts, hcg]
    show (AlertState.ofStore s).alertLogs.length + _ + 1 = _
    have : (AlertState.ofStore s).alertLogs.length = s.alertLogs.length := rfl
    rw [this]
    omega

/-- Witness for C3 at a concrete input: one newly missed dose, 2 contacts,
caregiver assigned — the detector returns 1, adds 4 notifications and 3
audit rows. -/
theorem C3_witness :
    (detectMissedDoses SmsMode.simulation (Except.ok true) "p1" thresholdMs
        fixStore).1 = 1
    ∧ (detectMissedDoses SmsMode.simulation (Except.ok true) "p1" thresholdMs
        fixStore).2.alertLogs.length
      = fixStore.alertLogs.length
        + ((fixStore.emergencyContacts.filter
            (fun c => c.patientId == "p1")).length + 1) := by
  refine ⟨?_, ?_⟩
  · exact (C3_fanout_completeness SmsMode.simulation (Except.ok true) "p1" thresholdMs
      fixStore fixPatient fixDose "cg1" fixCare (by decide) (by decide) (by decide)
      (by decide) (by decide)).1
  · exact (C3_fanout_completeness SmsMode.simulation (Except.ok true) "p1" thresholdMs
      fixStore fixPatient fixDose "cg1" fixCare (by decide) (by decide) (by decide)
      (by decide) (by decide)).2.2

theorem countP_congr_mem {α : Type} (p q : α → Bool) (l : List α)
    (h : ∀ a ∈ l, p a = q a) : l.countP p = l.countP q := by
  induction l with
  | nil => rfl
  | cons a l ih =>
    rw [List.countP_cons, List.countP_cons, h a (List.mem_cons_self a l),
      ih (fun x hx => h x (List.mem_cons_of_mem a hx))]

theorem demote_not_primary (pid : String) (c : Contact) :
    ((demote pid c).patientId == pid && (demote pid c).isPrimary) = false := by
  cases hb : (c.patientId == pid) <;> simp [demote, hb]

theorem demote_pred_other (pid pid' : String) (c : Contact) (h : pid' ≠ pid) :
    ((demote pid c).patientId == pid' && (demote pid c).isPrimary)
      = (c.patientId == pid' && c.isPrimary) := by
  cases hb : (c.patientId == pid)
  · simp [demote, hb]
  · have hcp : c.patientId = pid := by simpa using hb
    have : (c.patientId == pid') = false := by
      simp [hcp]
      exact fun hcontra => h hcontra.symm
    simp [demote, hb, this]

theorem take_cons_drop (α : Type) : ∀ (l : List α) (i : Nat), i < l.length →
    ∀ (m : α), l.set i m = l.take i ++ m :: l.drop (i + 1) := by
  intro l
  induction l with
  | nil => intro i h; simp at h
  | cons c cs ih =>
    intro i h m
    cases i with
    | zero => simp
    | succ n =>
      simp only [List.set, List.take, List.drop, List.cons_append, List.cons.injEq]
      exact ⟨trivial, ih n (by simpa using h) m⟩

theorem demoteOthers_set (pid : String) (m : Contact) :
    ∀ (idx : Nat) (l : List Contact), idx < l.length →
      (demoteOthers pid idx l).set idx m
        = (l.take idx).map (demote pid) ++ m :: (l.drop (idx + 1)).map (demote pid) := by
  intro idx
  induction idx with
  | zero =>
    intro l h
    cases l with
    | nil => simp at h
    | cons c cs => simp [demoteOthers]
  | succ n ih =>
    intro l h
    cases l with
    | nil => simp at h
    | cons c cs =>
      simp only [demoteOthers, List.set, List.take, List.drop, List.map_cons,
        List.cons_append, List.cons.injEq]
      exact ⟨trivial, ih cs (by simpa using h)⟩

theorem countP_split_at (α : Type) (p : α → Bool) (l : List α) (i : Nat)
    (h : i < l.length) :
    l.countP p = (l.take i).countP p + (if p l[i] then 1 else 0)
      + (l.drop (i + 1)).countP p := by
  conv_lhs => rw [← List.take_append_drop i l]
  rw [List.countP_append, List.drop_eq_getElem_cons h, List.countP_cons]
  omega

theorem mergeFields_patientId (c : Contact) (f : ContactFields) (now : Nat) :
    (mergeFields c f now).patientId = c.patientId := rfl

theorem mergeFields_isPrimary (c : Contact) (f : ContactFields) (now : Nat) :
    (mergeFields c f now).isPrimary = f.isPrimary.getD c.isPrimary := rfl

theorem merged_primary_le (c : Contact) (f : ContactFields) (now : Nat)
    (hprim : f.isPrimary.getD false = false) :
    (mergeFields c f now).isPrimary = true → c.isPrimary = true := by
  rw [mergeFields_isPrimary]
  cases hfi : f.isPrimary with
  | none => simp
  | some b =>
    rw [hfi] at hprim
    simp only [Option.getD_some] at hprim
    subst hprim
    simp

theorem merged_primary_of_truthy (c : Contact) (f : ContactFields) (now : Nat)
    (hprim : f.isPrimary.getD false = true) :
    (mergeFields c f now).isPrimary = true := by
  rw [mergeFields_isPrimary]
  cases hfi : f.isPrimary with
  | none => rw [hfi] at hprim; simp at hprim
  | some b =>
    rw [hfi] at hprim
    simp only [Option.getD_some] at hprim
    subst hprim
    simp

theorem updateContactList_primary_le (pid' : String) (f : ContactFields)
    (now : Nat) (l : List Contact) (idx : Nat) (hlt : idx < l.length)
    (h : l.countP (fun c => c.patientId == pid' && c.isPrimary) ≤ 1) :
    (updateContactList f now l idx).countP
      (fun c => c.patientId == pid' && c.isPrimary) ≤ 1 := by
  have holdeq : (l[idx]?).getD default = l[idx] := by
    rw [List.getElem?_eq_getElem hlt]
    rfl
  have hsplit := countP_split_at Contact
    (fun c => c.patientId == pid' && c.isPrimary) l idx hlt
  simp only [updateContactList]
  cases hprim : f.isPrimary.getD false with
  | false =>
    rw [if_neg (by simp [hprim])]
    rw [take_cons_drop Contact l idx hlt]
    rw [List.countP_append, List.countP_cons]
    have hmp : ((mergeFields ((l[idx]?).getD default) f now).patientId == pid'
        && (mergeFields ((l[idx]?).getD default) f now).isPrimary) = true
        → (l[idx].patientId == pid' && l[idx].isPrimary) = true := by
      intro hm
      rw [Bool.and_eq_true_iff] at hm
      obtain ⟨hm1, hm2⟩ := hm
      rw [mergeFields_patientId, holdeq] at hm1
      have := merged_primary_le ((l[idx]?).getD default) f now hprim hm2
      rw [holdeq] at this
      simp [hm1, this]
    by_cases hpm : ((mergeFields ((l[idx]?).getD default) f now).patientId == pid'
        && (mergeFields ((l[idx]?).getD default) f now).isPrimary) = true
    · have hold := hmp hpm
      rw [hpm]
      rw [hold] at hsplit
      simp at hsplit ⊢
      omega
    · rw [Bool.not_eq_true] at hpm
      rw [hpm]
      simp only [Bool.false_eq_true, if_false]
      split at hsplit <;> omega
  | true =>
    rw [if_pos (by simp [hprim])]
    rw [demoteOthers_set _ _ idx l hlt]
    rw [List.countP_append, List.countP_cons]
    by_cases hpe : pid' = ((l[idx]?).getD default).patientId
    · have hz1 : ((l.take idx).map (demote ((l[idx]?).getD default).patientId)).countP
          (fun c => c.patientId == pid' && c.isPrimary) = 0 := by
        rw [List.countP_eq_zero]
        intro a ha
        obtain ⟨a0, _, rfl⟩ := List.mem_map.mp ha
        rw [hpe]
        simp [demote_not_primary]
      have hz2 : ((l.drop (idx + 1)).map (demote ((l[idx]?).getD default).patientId)).countP
          (fun c => c.patientId == pid' && c.isPrimary) = 0 := by
        rw [List.countP_eq_zero]
        intro a ha
        obtain ⟨a0, _, rfl⟩ := List.mem_map.mp ha
        rw [hpe]
        simp [demote_not_primary]
      rw [hz1, hz2]
      split <;> omega
    · have he1 : ((l.take idx).map (demote ((l[idx]?).getD default).patientId)).countP
          (fun c => c.patientId == pid' && c.isPrimary)
          = (l.take idx).countP (fun c => c.patientId == pid' && c.isPrimary) := by
        rw [List.countP_map]
        exact countP_congr_mem _ _ _
          (fun a _ => demote_pred_other _ pid' a hpe)
      have he2 : ((l.drop (idx + 1)).map (demote ((l[idx]?).getD default).patientId)).countP
          (fun c => c.patientId == pid' && c.isPrimary)
          = (l.drop (idx + 1)).countP (fun c => c.patientId == pid' && c.isPrimary) := by
        rw [List.countP_map]
        exact countP_congr_mem _ _ _
          (fun a _ => demote_pred_other _ pid' a hpe)
      have hm0 : ((mergeFields ((l[idx]?).getD default) f now).patientId == pid'
          && (mergeFields ((l[idx]?).getD default) f now).isPrimary) = false := by
        rw [mergeFields_patientId]
        have : (((l[idx]?).getD default).patientId == pid') = false := by
          simp
          exact fun hcontra => hpe hcontra.symm
        simp [this]
      rw [he1, he2, hm0]
      simp only [Bool.false_eq_true, if_false]
      split at hsplit <;> omega

theorem addContactList_primary_le (pid' pid name rel phone : String)
    (prim : Bool) (now nid : Nat) (l : List Contact)
    (h : l.countP (fun c => c.patientId == pid' && c.isPrimary) ≤ 1) :
    (addContactList pid name rel phone prim now nid l).countP
      (fun c => c.patientId == pid' && c.isPrimary) ≤ 1 := by
  unfold addContactList
  rw [List.countP_append]
  cases prim with
  | false =>
    rw [if_neg (by simp)]
    have hz : List.countP (fun c => c.patientId == pid' && c.isPrimary)
        [newContactRec pid name rel phone false now nid] = 0 := by
      simp [newContactRec]
    rw [hz]
    omega
  | true =>
    rw [if_pos rfl]
    by_cases hpe : pid' = pid
    · have hz : (l.map (demote pid)).countP
          (fun c => c.patientId == pid' && c.isPrimary) = 0 := by
        rw [List.countP_eq_zero]
        intro a ha
        obtain ⟨a0, _, rfl⟩ := List.mem_map.mp ha
        subst hpe
        simp [demote_not_primary]
      have ho : List.countP (fun c => c.patientId == pid' && c.isPrimary)
          [newContactRec pid name rel phone true now nid] ≤ 1 := by
        rw [List.countP_cons]
        simp only [List.countP_nil]
        split <;> omega
      rw [hz]
      omega
    · have he : (l.map (demote pid)).countP
          (fun c => c.patientId == pid' && c.isPrimary)
          = l.countP (fun c => c.patientId == pid' && c.isPrimary) := by
        rw [List.countP_map]
        exact countP_congr_mem _ _ _ (fun a _ => demote_pred_other pid pid' a hpe)
      have hz : List.countP (fun c => c.patientId == pid' && c.isPrimary)
          [newContactRec pid name rel phone true now nid] = 0 := by
        have : (pid == pid') = false := by
          simp
          exact fun hc => hpe hc.symm
        simp [newContactRec, this]
      rw [he, hz]
      omega

theorem addContactList_exact (pid name rel phone : String) (now nid : Nat)
    (l : List Contact) :
    ∃ prev b, addContactList pid name rel phone true now nid l = prev ++ [b]
      ∧ b.patientId = pid ∧ b.isPrimary = true
      ∧ ∀ c ∈ prev, ¬(c.patientId = pid ∧ c.isPrimary = true) := by
  refine ⟨l.map (demote pid), newContactRec pid name rel phone true now nid,
    by unfold addContactList; rw [if_pos rfl], rfl, rfl, ?_⟩
  intro c hc
  obtain ⟨c0, _, rfl⟩ := List.mem_map.mp hc
  rintro ⟨hcp, hcpr⟩
  have hd := demote_not_primary pid c0
  rw [Bool.and_eq_false_iff] at hd
  rcases hd with h1 | h2
  · rw [hcp] at h1
    simp at h1
  · rw [hcpr] at h2
    cases h2

theorem updateContact_eq_none (cid : String) (f : ContactFields) (now : Nat)
    (s : Store) (h : s.emergencyContacts.findIdx? (fun c => c.id == cid) = none) :
    updateContact cid f now s = ({ ok := false, error := some "Contact not found." }, s) := by
  unfold updateContact
  rw [h]

theorem updateContact_eq_some (cid : String) (f : ContactFields) (now : Nat)
    (s : Store) (idx : Nat)
    (h : s.emergencyContacts.findIdx? (fun c => c.id == cid) = some idx) :
    updateContact cid f now s =
      (if (match f.phone with
          | some p => decide (p ≠ "") && !validatePhone p
          | none => false) = true then
        ({ ok := false, error := some "Invalid phone format." }, s)
      else
        ({ ok := true, error := none },
         { s with emergencyContacts := updateContactList f now s.emergencyContacts idx })) := by
  unfold updateContact
  rw [h]

/-- C7: the single-primary invariant. (1) `addContact` preserves "at most
one primary contact per patient" for every patient; (2) `updateContact`
preserves it as well; (3) after successfully adding contact B as primary,
the contact list is the demoted old list plus B at the end: B is primary
for its patient and no earlier contact is a primary of that patient — so
exactly B is primary even if some contact A was primary before. -/
theorem C7_single_primary :
    (∀ (pid' pid name rel phone : String) (prim : Bool) (now : Nat) (s : Store),
      primaryCount pid' s.emergencyContacts ≤ 1 →
      primaryCount pid' (addContact pid name rel phone prim now s).2.emergencyContacts ≤ 1)
    ∧ (∀ (pid' cid : String) (f : ContactFields) (now : Nat) (s : Store),
      primaryCount pid' s.emergencyContacts ≤ 1 →
      primaryCount pid' (updateContact cid f now s).2.emergencyContacts ≤ 1)
    ∧ (∀ (pid name rel phone : String) (now : Nat) (s : Store),
      (addContact pid name rel phone true now s).1.ok = true →
      ∃ prev b, (addContact pid name rel phone true now s).2.emergencyContacts
          = prev ++ [b]
        ∧ b.patientId = pid ∧ b.isPrimary = true
        ∧ ∀ c ∈ prev, ¬(c.patientId = pid ∧ c.isPrimary = true)) := by
  refine ⟨?_, ?_, ?_⟩
  · intro pid' pid name rel phone prim now s h
    unfold addContact
    by_cases h1 : jsTrim name = "" ∨ jsTrim phone = ""
    · rw [if_pos (by simpa using h1)]
      exact h
    · rw [if_neg (by simpa using h1)]
      by_cases h2 : validatePhone phone = true
      · rw [if_neg (by simp [h2])]
        exact addContactList_primary_le pid' pid name rel phone prim now s.nextId
          s.emergencyContacts h
      · rw [Bool.not_eq_true] at h2
        rw [if_pos (by simp [h2])]
        exact h
  · intro pid' cid f now s h
    cases hidx : s.emergencyContacts.findIdx? (fun c => c.id == cid) with
    | none =>
      rw [updateContact_eq_none cid f now s hidx]
      exact h
    | some idx =>
      obtain ⟨hlt, -⟩ := List.findIdx?_eq_some_iff_getElem.mp hidx
      rw [updateContact_eq_some cid f now s idx hidx]
      by_cases hph : (match f.phone with
          | some p => decide (p ≠ "") && !validatePhone p
          | none => false) = true
      · rw [if_pos hph]
        exact h
      · rw [if_neg hph]
        exact updateContactList_primary_le pid' f now s.emergencyContacts idx hlt h
  · intro pid name rel phone now s hok
    unfold addContact at hok ⊢
    by_cases h1 : jsTrim name = "" ∨ jsTrim phone = ""
    · rw [if_pos (by simpa using h1)] at hok
      simp at hok
    · rw [if_neg (by simpa using h1)] at hok ⊢
      by_cases h2 : validatePhone phone = true
      · rw [if_neg (by simp [h2])]
        exact addContactList_exact pid name rel phone now s.nextId s.emergencyContacts
      · rw [Bool.not_eq_true] at h2
        rw [if_pos (by simp [h2])] at hok
        simp at hok

/-- Witness for C7 at a concrete input: adding Bea as primary to a patient
whose contact Alice is already primary keeps at most one primary, and the
resulting list is a demoted prefix plus Bea, the only primary. -/
theorem C7_witness :
    primaryCount "p1" (addContact "p1" "Bea" "Friend" "555-0104" true 5
        fixStore).2.emergencyContacts ≤ 1
    ∧ (∃ prev b, (addContact "p1" "Bea" "Friend" "555-0104" true 5
          fixStore).2.emergencyContacts = prev ++ [b]
        ∧ b.patientId = "p1" ∧ b.isPrimary = true
        ∧ ∀ c ∈ prev, ¬(c.patientId = "p1" ∧ c.isPrimary = true)) := by
  exact ⟨C7_single_primary.1 "p1" "p1" "Bea" "Friend" "555-0104" true 5 fixStore
      (by decide),
    C7_single_primary.2.2 "p1" "Bea" "Friend" "555-0104" 5 fixStore (by decide)⟩

theorem sameExceptAck_refl (l : AlertLogEntry) : sameExceptAck l l :=
  ⟨rfl, rfl, rfl, rfl, rfl, rfl, rfl, rfl, rfl, rfl, rfl, rfl, rfl, rfl, rfl⟩

theorem sameExceptAck_setAck (l : AlertLogEntry) (x : Option Nat) :
    sameExceptAck l { l with acknowledgedAt := x } :=
  ⟨rfl, rfl, rfl, rfl, rfl, rfl, rfl, rfl, rfl, rfl, rfl, rfl, rfl, rfl, rfl⟩

theorem forall₂_map_of_pointwise {α : Type} (R : α → α → Prop) (g : α → α)
    (h : ∀ a, R a (g a)) : ∀ l : List α, List.Forall₂ R l (l.map g) := by
  intro l
  induction l with
  | nil => exact List.Forall₂.nil
  | cons a l ih => exact List.Forall₂.cons (h a) ih

theorem ackEntry_spec (pid : String) (t : Nat) (a : AlertLogEntry) :
    sameExceptAck a (ackEntry pid t a)
    ∧ ((¬(a.patientId = pid) ∨ a.acknowledgedAt ≠ none) → ackEntry pid t a = a)
    ∧ (a.patientId = pid ∧ a.acknowledgedAt = none
        → (ackEntry pid t a).acknowledgedAt = some t) := by
  unfold ackEntry
  cases hc : (a.patientId == pid && a.acknowledgedAt == none) with
  | true =>
    rw [Bool.and_eq_true_iff] at hc
    obtain ⟨hp, hn⟩ := hc
    refine ⟨by simp [sameExceptAck_setAck], ?_, by simp⟩
    intro hcontra
    rcases hcontra with hcontra | hcontra
    · exact absurd (by simpa using hp) hcontra
    · exact absurd (by simpa using hn) hcontra
  | false =>
    refine ⟨by simp [sameExceptAck_refl], by simp, ?_⟩
    rintro ⟨hp, hn⟩
    rw [Bool.and_eq_false_iff] at hc
    rcases hc with hc | hc
    · rw [hp] at hc; simp at hc
    · rw [hn] at hc; simp at hc

theorem forall₂_same_of {α : Type} (R : α → α → Prop) (h : ∀ a, R a a) :
    ∀ l : List α, List.Forall₂ R l l := by
  intro l
  induction l with
  | nil => exact List.Forall₂.nil
  | cons a l ih => exact List.Forall₂.cons (h a) ih

theorem ackEntry_idem (pid : String) (t1 t2 : Nat) (a : AlertLogEntry) :
    ackEntry pid t2 (ackEntry pid t1 a) = ackEntry pid t1 a := by
  by_cases hc : (a.patientId == pid && a.acknowledgedAt == none) = true
  · have h1 : ackEntry pid t1 a = { a with acknowledgedAt := some t1 } := by
      unfold ackEntry
      rw [if_pos hc]
    rw [h1]
    unfold ackEntry
    rw [if_neg (by simp)]
  · have h1 : ackEntry pid t1 a = a := by
      unfold ackEntry
      rw [if_neg hc]
    rw [h1]
    unfold ackEntry
    rw [if_neg hc]

theorem setAckAt_cons_pos (lid : String) (t : Nat) (l : AlertLogEntry)
    (ls : List AlertLogEntry) (hc : (l.id == lid) = true) :
    setAckAt lid t (l :: ls) = { l with acknowledgedAt := some t } :: ls := by
  unfold setAckAt
  rw [if_pos hc]

theorem setAckAt_cons_neg (lid : String) (t : Nat) (l : AlertLogEntry)
    (ls : List AlertLogEntry) (hc : ¬(l.id == lid) = true) :
    setAckAt lid t (l :: ls) = l :: setAckAt lid t ls := by
  conv_lhs => unfold setAckAt
  rw [if_neg hc]

theorem setAckAt_frame (lid : String) (t : Nat) :
    ∀ L : List AlertLogEntry,
      List.Forall₂ (fun a b => sameExceptAck a b ∧ (a.id ≠ lid → b = a))
        L (setAckAt lid t L) := by
  intro L
  induction L with
  | nil => exact List.Forall₂.nil
  | cons l ls ih =>
    by_cases hc : (l.id == lid) = true
    · rw [setAckAt_cons_pos lid t l ls hc]
      exact List.Forall₂.cons
        ⟨sameExceptAck_setAck l _, fun hne => absurd (by simpa using hc) hne⟩
        (forall₂_same_of _ (fun a => ⟨sameExceptAck_refl a, fun _ => rfl⟩) ls)
    · rw [setAckAt_cons_neg lid t l ls hc]
      exact List.Forall₂.cons ⟨sameExceptAck_refl l, fun _ => rfl⟩ ih

theorem setAckAt_idem (lid : String) (t : Nat) :
    ∀ L : List AlertLogEntry, setAckAt lid t (setAckAt lid t L) = setAckAt lid t L := by
  intro L
  induction L with
  | nil => rfl
  | cons l ls ih =>
    by_cases hc : (l.id == lid) = true
    · rw [setAckAt_cons_pos lid t l ls hc]
      rw [setAckAt_cons_pos lid t _ ls (by simpa using hc)]
    · rw [setAckAt_cons_neg lid t l ls hc]
      rw [setAckAt_cons_neg lid t l _ hc, ih]

/-- An unacknowledged audit-log entry for patient `p1`. -/
def fixLog : AlertLogEntry :=
  { id := "L1", patientId := "p1", doseId := "d1", medName := "Aspirin",
    medDosage := "100mg", scheduledTime := some 0, contactId := "c1",
    contactName := "Alice", contactPhone := "555-0101", contactRole := "Sister",
    type := .emergency_contact, smsMessage := "msg",
    deliveryStatus := .simulated, provider := "simulation",
    triggeredAt := 1, acknowledgedAt := none }

/-- A store holding only `fixLog` in the audit trail. -/
def fixLogStore : Store :=
  { doses := [], medications := [], users := [], emergencyContacts := [],
    caregiverAssignment := [], notifications := [], alertLogs := [fixLog],
    nextId := 0 }

/-- C8 (amended): `acknowledgeAllLogs` sets `acknowledgedAt` only on
entries currently unacknowledged for the given patient, leaves every other
field of every entry unchanged, and is idempotent — re-acknowledging (at
any later instant) is a no-op. `acknowledgeLog` also leaves every other
field of every entry unchanged and touches no entry with a different id,
but it overwrites `acknowledgedAt` unconditionally, so acknowledging the
same entry twice yields the same end state only when the clock timestamp
is unchanged (at a later instant it re-stamps the entry — see the
counterexample). -/
theorem C8_acknowledge_frame :
    (∀ (pid : String) (t : Nat) (s : Store),
      List.Forall₂ (fun a b => sameExceptAck a b
          ∧ ((¬(a.patientId = pid) ∨ a.acknowledgedAt ≠ none) → b = a)
          ∧ (a.patientId = pid ∧ a.acknowledgedAt = none
              → b.acknowledgedAt = some t))
        s.alertLogs (acknowledgeAllLogs pid t s).alertLogs)
    ∧ (∀ (pid : String) (t1 t2 : Nat) (s : Store),
      acknowledgeAllLogs pid t2 (acknowledgeAllLogs pid t1 s)
        = acknowledgeAllLogs pid t1 s)
    ∧ (∀ (lid : String) (t : Nat) (s : Store),
      List.Forall₂ (fun a b => sameExceptAck a b ∧ (a.id ≠ lid → b = a))
        s.alertLogs (acknowledgeLog lid t s).alertLogs)
    ∧ (∀ (lid : String) (t : Nat) (s : Store),
      acknowledgeLog lid t (acknowledgeLog lid t s) = acknowledgeLog lid t s) := by
  refine ⟨?_, ?_, ?_, ?_⟩
  · intro pid t s
    exact forall₂_map_of_pointwise _ (ackEntry pid t)
      (fun a => ackEntry_spec pid t a) s.alertLogs
  · intro pid t1 t2 s
    unfold acknowledgeAllLogs
    congr 1
    show (s.alertLogs.map (ackEntry pid t1)).map (ackEntry pid t2)
      = s.alertLogs.map (ackEntry pid t1)
    rw [List.map_map]
    exact List.map_congr_left (fun a _ => ackEntry_idem pid t1 t2 a)
  · intro lid t s
    exact setAckAt_frame lid t s.alertLogs
  · intro lid t s
    unfold acknowledgeLog
    congr 1
    exact setAckAt_idem lid t s.alertLogs

/-- Counterexample for C8 as frozen: acknowledging the same entry a second
time at a later instant is not a no-op for `acknowledgeLog` — it
re-stamps `acknowledgedAt` (5 becomes 9), so the end state differs from
acknowledging once, and an already-acknowledged entry was modified. -/
theorem C8_counterexample :
    ((acknowledgeLog "L1" 5 fixLogStore).alertLogs.map
        (fun l => l.acknowledgedAt)) = [some 5]
    ∧ ((acknowledgeLog "L1" 9 (acknowledgeLog "L1" 5 fixLogStore)).alertLogs.map
        (fun l => l.acknowledgedAt)) = [some 9]
    ∧ acknowledgeLog "L1" 9 (acknowledgeLog "L1" 5 fixLogStore)
        ≠ acknowledgeLog "L1" 5 fixLogStore := by
  refine ⟨by decide, by decide, by decide⟩

/-- Witness for C8 at a concrete input: bulk acknowledgement is idempotent
on a concrete store even at a later instant. -/
theorem C8_witness :
    acknowledgeAllLogs "p1" 9 (acknowledgeAllLogs "p1" 5 fixLogStore)
      = acknowledgeAllLogs "p1" 5 fixLogStore :=
  C8_acknowledge_frame.2.1 "p1" 5 9 fixLogStore
